import Mathlib

/-!
Shallow embedding of the sales-data-analyst repository (TypeScript) and
verification of the frozen claims about it.

Sources embedded here:
* `src/lib/db.ts` (`query`, `executeNaturalLanguageQuery`,
  `prepareDataForVisualization`, `formatColumnLabel`),
* `src/app/api/finance/route.ts` (final version: `POST` validation and
  error handling, `shouldCreateVisualization`, `needsDataExplanation`,
  `getDataExplanation`, `prepareChartDataForFrontend`),
* `src/components/ChartRenderer.tsx` (embedded `/lib/sql-query-generator.ts`:
  schema catalog, `determineColumns` and the sales-by-product special case).

Modelling conventions: JavaScript strings are Lean `String`s and all string
operations used by the code (`toLowerCase`, `includes`, `startsWith`, `trim`,
`replace`) are re-implemented over the character list, restricted to the
ASCII behaviour that is exercised by this code base; JavaScript numbers that
occur in the relevant code paths are integers and are modelled by `Int`;
row objects are association lists from property names to values; fallible
external collaborators (database driver, LLM client, date localisation) are
oracle parameters.
-/

/-- JS `String.prototype.toLowerCase` on one character (ASCII range). -/
def jsCharLower (c : Char) : Char :=
  if 65 ≤ c.toNat ∧ c.toNat ≤ 90 then Char.ofNat (c.toNat + 32) else c

/-- JS `String.prototype.toUpperCase` on one character (ASCII range). -/
def jsCharUpper (c : Char) : Char :=
  if 97 ≤ c.toNat ∧ c.toNat ≤ 122 then Char.ofNat (c.toNat - 32) else c

/-- JS `s.toLowerCase()`. -/
def jsToLower (s : String) : String := ⟨s.data.map jsCharLower⟩

/-- Occurrence of `needle` as a contiguous substring (JS `String.prototype.includes`). -/
def listIncl (needle : List Char) : List Char → Bool
  | [] => needle.isEmpty
  | c :: t => needle.isPrefixOf (c :: t) || listIncl needle t

/-- JS `s.includes(sub)`. -/
def jsIncludes (s sub : String) : Bool := listIncl sub.data s.data

/-- JS `s.startsWith(pre)`. -/
def jsStartsWith (s pre : String) : Bool := pre.data.isPrefixOf s.data

/-- The whitespace characters recognised by the model (JS `\s`, ASCII part). -/
def isJsSpace (c : Char) : Bool :=
  c = ' ' || c = '\t' || c = '\n' || c = '\r' || c = '\x0b' || c = '\x0c'

/-- JS `s.trim()`. -/
def jsTrim (s : String) : String :=
  ⟨((s.data.dropWhile isJsSpace).reverse.dropWhile isJsSpace).reverse⟩

/-- JS `\d`. -/
def isDigitChar (c : Char) : Bool := '0' ≤ c && c ≤ '9'

/-- JS `\w` = `[A-Za-z0-9_]`. -/
def isWordChar (c : Char) : Bool := c.isAlpha || isDigitChar c || c = '_'

/-- Decimal value of a digit string (`parseInt(ds, 10)` on an all-digit string). -/
def digitsToNat (ds : List Char) : Nat := ds.foldl (fun n c => 10 * n + (c.toNat - 48)) 0

/-- JS `s.replace(/_/g, ' ')`. -/
def underscoreToSpace (s : String) : String :=
  ⟨s.data.map (fun c => if c = '_' then ' ' else c)⟩

/-- JS `s.substring(n)`. -/
def strDrop (s : String) (n : Nat) : String := ⟨s.data.drop n⟩

/-- Whether JS `parseFloat(s)` returns a non-NaN number: after optional leading
whitespace and an optional sign, the string must continue with a digit, a dot
followed by a digit, or the literal `Infinity`. -/
def parseFloatOk (s : String) : Bool :=
  let cs := s.data.dropWhile isJsSpace
  let cs2 := match cs with
    | c :: rest => if c = '+' || c = '-' then rest else c :: rest
    | [] => []
  match cs2 with
  | [] => false
  | c :: rest =>
    isDigitChar c
      || (c = '.' && (match rest with | d :: _ => isDigitChar d | [] => false))
      || "Infinity".data.isPrefixOf (c :: rest)

/-- Decimal digits of `n`, least significant first. -/
def natDigitsRev (n : Nat) : List Char :=
  if h : n < 10 then [Char.ofNat (48 + n)]
  else Char.ofNat (48 + n % 10) :: natDigitsRev (n / 10)
decreasing_by exact Nat.div_lt_self (by omega) (by omega)

/-- Decimal rendering of a natural number (JS template interpolation of an index). -/
def natDecimal (n : Nat) : String := ⟨(natDigitsRev n).reverse⟩

/-- A JavaScript value as it occurs in query-result rows and chart payloads. -/
inductive JsVal
  | num (n : Int)
  | str (s : String)
  | undef
  | other
deriving DecidableEq

/-- `typeof v === 'number'`. -/
def isNumVal : JsVal → Bool
  | .num _ => true
  | _ => false

/-- `typeof v === 'string'`. -/
def isStrVal : JsVal → Bool
  | .str _ => true
  | _ => false

/-- JS `String(v)` for the values this code inspects. -/
def jsValString : JsVal → String
  | .num n => toString n
  | .str s => s
  | .undef => "undefined"
  | .other => "[object Object]"

/-- A row object: property names with their values. -/
def RowObj : Type := List (String × JsVal)

instance : DecidableEq RowObj := by unfold RowObj; infer_instance

/-- `Object.keys(r)`. -/
def rowKeys (r : RowObj) : List String := r.map Prod.fst

/-- `r[k]` (missing property gives `undefined`). -/
def rowGet (r : RowObj) (k : String) : JsVal := (r.lookup k).getD JsVal.undef

/-- First row of a result set (`data[0]`); only evaluated behind non-emptiness
guards in the embedded code. -/
def headRow (rows : List RowObj) : RowObj := rows.headD []

/-- Truthiness of an optional string property (JS: `undefined` and `""` are falsy). -/
def optFalsy : Option String → Bool
  | none => true
  | some s => s == ""

/-! ### `src/lib/db.ts` — `query` (placeholder substitution), claim C8 -/

/-- Replace the first occurrence of the character `c` (the `?` placeholder) by
`repl`, as JS `String.prototype.replace` does with a literal one-character
pattern. -/
def replaceFirstChar (c : Char) (repl : List Char) : List Char → List Char
  | [] => []
  | x :: xs => if x = c then repl ++ xs else x :: replaceFirstChar c repl xs

/-- The parameter name `p<i>` used by `request.input`. -/
def paramName (i : Nat) : String := "p" ++ natDecimal i

/-- The text `@p<i>` substituted for the `i`-th `?` placeholder. -/
def paramMarker (i : Nat) : List Char := '@' :: 'p' :: (natDigitsRev i).reverse

/-- The state of the `mssql` request built by `query`: the named inputs
registered via `request.input`, and the rewritten SQL text. -/
structure PreparedRequest (α : Type) where
  inputs : List (String × α)
  sqlText : List Char
deriving DecidableEq

/-- Embedding of `query(queryText, params)` from `src/lib/db.ts`: registers
`params[i]` under the name `p<i>` and replaces, for `i = 0, 1, ...`, the first
remaining `?` of the SQL text by `@p<i>`. -/
def queryPrepare {α : Type} (queryText : String) (params : List α) : PreparedRequest α :=
  { inputs := params.enum.map (fun p => (paramName p.1, p.2)),
    sqlText :=
      (List.range params.length).foldl
        (fun acc i => replaceFirstChar '?' (paramMarker i) acc) queryText.data }

/-- A SQL text with `segs.length - 1` placeholders, written as the segments
joined by single `?` characters. -/
def joinQ : List (List Char) → List Char
  | [] => []
  | [s] => s
  | s :: t :: rest => s ++ '?' :: joinQ (t :: rest)

/-- The expected rewriting: the `i`-th leftmost `?` replaced by `@p<i>`. -/
def renderSegs : List (List Char) → Nat → List Char
  | [], _ => []
  | [s], _ => s
  | s :: t :: rest, i => s ++ paramMarker i ++ renderSegs (t :: rest) (i + 1)

/-! ### `src/lib/db.ts` — `executeNaturalLanguageQuery`, claim C7 -/

/-- A value thrown by the database driver: either an `Error` instance carrying
a message, or a non-`Error` value. -/
inductive JsThrown
  | errObj (msg : String)
  | nonError
deriving DecidableEq

/-- The argument object of `executeNaturalLanguageQuery`. -/
structure NLQueryInput (α : Type) where
  sql : Option String
  params : Option (List α)

/-- The result value of `executeNaturalLanguageQuery`. -/
inductive NLQueryOutcome (β : Type)
  | ok (data : List β) (rowCount : Nat) (explanation : String) (sqlEcho : String)
  | fail (error : String) (explanation : String)
deriving DecidableEq

/-- Embedding of `executeNaturalLanguageQuery` from `src/lib/db.ts`.  The
database collaborator is the oracle `dbQuery`, returning either a thrown value
or the (possibly absent) `recordset`. -/
def executeNaturalLanguageQuery {α β : Type}
    (dbQuery : String → List α → Except JsThrown (Option (List β)))
    (queryData : NLQueryInput α) : NLQueryOutcome β :=
  let sql := queryData.sql.getD ""
  let params := queryData.params.getD []
  if sql = "" then
    .fail "No SQL query provided" "Failed to generate SQL query"
  else
    match dbQuery sql params with
    | .error e =>
      .fail (match e with | .errObj m => m | .nonError => "Unknown error occurred")
        "An error occurred while executing your query."
    | .ok recordset =>
      let explanation :=
        (if jsIncludes (jsToLower sql) "group by" then
          "This query aggregates data from the database"
        else
          "This query retrieves data from the database")
        ++ (if jsIncludes (jsToLower sql) "order by" then " and sorts the results" else "")
      .ok (recordset.getD []) ((recordset.map List.length).getD 0) explanation sql

/-! ### `src/app/api/finance/route.ts` — `shouldCreateVisualization`, claim C1 -/

/-- The explicit visualization keywords of the third decision rule. -/
def vizKeywords : List String := ["compare", "trend", "distribution", "chart", "graph"]

/-- The metric vocabulary of the `[metric] by [category]` rule. -/
def metricTerms : List String :=
  ["sales", "revenue", "profit", "products", "performance", "data", "count", "total", "amount"]

/-- The category vocabulary of the `[metric] by [category]` rule. -/
def categoryTerms : List String :=
  ["region", "country", "city", "product", "category", "month", "year", "quarter", "date", "day", "type"]

/-- The comparison / ranking keywords. -/
def comparisonKeywords : List String :=
  ["top", "bottom", "highest", "lowest", "most", "least", "compare", "comparison", "versus", "vs"]

/-- The alternatives of the first capture group of
`/\b(top|bottom|highest|lowest|most|least)\s+(\d+)\b/i`. -/
def countKeywords : List String := ["top", "bottom", "highest", "lowest", "most", "least"]

/-- Attempt to complete the regex after a matched keyword: at least one
whitespace character, then at least one digit, then a word boundary; returns
the parsed count (`parseInt(matches[2], 10)`). -/
def matchCountAfter (rest : List Char) : Option Nat :=
  let sp := rest.takeWhile isJsSpace
  if sp.isEmpty then none
  else
    let r1 := rest.drop sp.length
    let ds := r1.takeWhile isDigitChar
    if ds.isEmpty then none
    else
      match r1.drop ds.length with
      | [] => some (digitsToNat ds)
      | a :: _ => if isWordChar a then none else some (digitsToNat ds)

/-- Attempt the regex at one position: one of the keyword alternatives, then
whitespace and digits as above. -/
def tryKeywordAt (cs : List Char) : Option Nat :=
  countKeywords.findSome? (fun kw =>
    if kw.data.isPrefixOf cs then matchCountAfter (cs.drop kw.data.length) else none)

/-- Left-to-right regex scan; `prevIsWord` tracks the word boundary `\b`
before the keyword. -/
def scanCount (prevIsWord : Bool) : List Char → Option Nat
  | [] => none
  | c :: rest =>
    match (if prevIsWord then none else tryKeywordAt (c :: rest)) with
    | some n => some n
    | none => scanCount (isWordChar c) rest

/-- Embedding of
`normalizedQuery.match(/\b(top|bottom|highest|lowest|most|least)\s+(\d+)\b/i)`
together with `parseInt(matches[2], 10)` (the query is already lower-cased at
the call site, so the `i` flag is immaterial). -/
def extractTopCount (s : String) : Option Nat := scanCount false s.data

/-- The `[metric] by [category]` trigger (rule 4 of `shouldCreateVisualization`). -/
def byCategoryPattern (nq : String) (data : List RowObj) : Bool :=
  jsIncludes nq " by "
    && metricTerms.any (fun m => jsIncludes nq m)
    && categoryTerms.any (fun c => jsIncludes nq (" by " ++ c))
    && data.length > 1

/-- Columns of `data[0]` that look date/time-like (rule 7). -/
def hasDateColumn (r : RowObj) : Bool :=
  (rowKeys r).any (fun k =>
    jsIncludes (jsToLower k) "date" || jsIncludes (jsToLower k) "time"
      || jsIncludes (jsToLower k) "month" || jsIncludes (jsToLower k) "year")

/-- Columns of `data[0]` whose names match the categorical vocabulary (rule 8). -/
def possibleCategoryColumns (r : RowObj) : List String :=
  (rowKeys r).filter (fun k =>
    jsIncludes (jsToLower k) "type" || jsIncludes (jsToLower k) "category"
      || jsIncludes (jsToLower k) "region" || jsIncludes (jsToLower k) "country"
      || jsIncludes (jsToLower k) "city" || jsIncludes (jsToLower k) "product"
      || jsIncludes (jsToLower k) "name")

/-- Columns of `data[0]` whose first value is a number or parses as one (rule 9). -/
def vizNumericColumns (r : RowObj) : List String :=
  (rowKeys r).filter (fun k =>
    match rowGet r k with
    | .num _ => true
    | .str s => parseFloatOk s
    | _ => false)

/-- Embedding of `shouldCreateVisualization` (final version,
`src/app/api/finance/route.ts`).  `userWantsChart` is the surrounding flag set
when the LLM already made a `generate_graph_data` tool call. -/
def shouldCreateVisualization (userWantsChart : Bool) (data : List RowObj) (query : String) : Bool :=
  let nq := jsTrim (jsToLower query)
  if userWantsChart then true
  else if jsStartsWith nq "show" || jsStartsWith nq "display"
      || jsIncludes nq "show me" || jsIncludes nq "visual" then true
  else if vizKeywords.any (fun k => jsIncludes nq k) then true
  else if byCategoryPattern nq data then true
  else if comparisonKeywords.any (fun k => jsIncludes nq k) then
    match extractTopCount nq with
    | some n => n > 3
    | none => data.length > 3
  else if data.length ≤ 3 then false
  else if hasDateColumn (headRow data) && data.length > 3 then true
  else if data.length > 3 && !(possibleCategoryColumns (headRow data)).isEmpty then true
  else if (vizNumericColumns (headRow data)).length > 1 && data.length > 3 then true
  else false

/-! ### `src/lib/db.ts` — `prepareDataForVisualization`, claims C2 and C6 -/

/-- JS `s.split('_')`. -/
def splitOnUnderscore : List Char → List (List Char)
  | [] => [[]]
  | c :: rest =>
    if c = '_' then [] :: splitOnUnderscore rest
    else
      match splitOnUnderscore rest with
      | [] => [[c]]
      | w :: ws => (c :: w) :: ws

/-- `word.charAt(0).toUpperCase() + word.slice(1)`. -/
def capitalizeWord : List Char → List Char
  | [] => []
  | c :: rest => jsCharUpper c :: rest

/-- JS `Array.prototype.join(' ')`. -/
def joinWithSpace : List (List Char) → List Char
  | [] => []
  | [w] => w
  | w :: x :: rest => w ++ ' ' :: joinWithSpace (x :: rest)

/-- Embedding of `formatColumnLabel` from `src/lib/db.ts`. -/
def formatColumnLabel (columnName : String) : String :=
  if jsStartsWith columnName "total_" then "Total " ++ underscoreToSpace (strDrop columnName 6)
  else if jsStartsWith columnName "avg_" then "Average " ++ underscoreToSpace (strDrop columnName 4)
  else if jsStartsWith columnName "count_" then "Count of " ++ underscoreToSpace (strDrop columnName 6)
  else if jsIncludes columnName "FORMAT(" || jsIncludes columnName "YEAR("
      || jsIncludes columnName "MONTH(" || jsIncludes columnName "DAY(" then "Date"
  else ⟨joinWithSpace ((splitOnUnderscore columnName.data).map capitalizeWord)⟩

/-- The `config` object of the chart structure built by
`prepareDataForVisualization`. -/
structure VizConfig where
  xAxisKey : String
  title : String
  description : String
deriving DecidableEq

/-- The chart structure built by `prepareDataForVisualization`
(`chartConfig` maps a series key to its `label`). -/
structure VizChart where
  chartType : String
  data : List RowObj
  config : VizConfig
  chartConfig : List (String × String)
deriving DecidableEq

/-- Time-like columns (`timeColumns` in the source). -/
def vizTimeColumns (columns : List String) : List String :=
  columns.filter (fun col =>
    jsIncludes (jsToLower col) "date" || jsIncludes (jsToLower col) "month"
      || jsIncludes (jsToLower col) "year" || jsIncludes (jsToLower col) "period"
      || jsIncludes (jsToLower col) "time_period" || jsIncludes (jsToLower col) "format(")

/-- Numeric value columns (`numericColumns` in the source). -/
def vizNumericCols (first : RowObj) (columns : List String) : List String :=
  columns.filter (fun col =>
    isNumVal (rowGet first col) && !(jsIncludes (jsToLower col) "id") && col ≠ "key")

/-- Categorical columns (`categoricalColumns` in the source). -/
def vizCategoricalCols (first : RowObj) (columns : List String) : List String :=
  columns.filter (fun col =>
    isStrVal (rowGet first col) && !(jsIncludes (jsToLower col) "date")
      && !((vizTimeColumns columns).contains col))

/-- The distribution vocabulary that selects a pie chart. -/
def hasDistributionWord (queryLower : String) : Bool :=
  jsIncludes queryLower "distribution" || jsIncludes queryLower "breakdown"
    || jsIncludes queryLower "proportion" || jsIncludes queryLower "percentage"
    || jsIncludes queryLower "share" || jsIncludes queryLower "pie"

/-- The trend vocabulary that (with a time column) selects a line chart. -/
def hasTrendWord (queryLower : String) : Bool :=
  jsIncludes queryLower "trend" || jsIncludes queryLower "over time"
    || jsIncludes queryLower "timeseries" || jsIncludes queryLower "time series"

/-- The chart-type decision chain of `prepareDataForVisualization`
(the `else` default keeps the initial `'bar'`). -/
def vizChartType (queryLower : String) (rowCount : Nat) (hasTimeColumn : Bool)
    (numericColumns categoricalColumns : List String) : String :=
  if hasTimeColumn && hasTrendWord queryLower then "line"
  else if categoricalColumns.length > 0 && numericColumns.length > 1 then "multibar"
  else if hasDistributionWord queryLower then "pie"
  else if rowCount > 10 && hasTimeColumn then "line"
  else if numericColumns.length > 3 then "multibar"
  else if numericColumns.length = 1 && categoricalColumns.length = 1 then "bar"
  else "bar"

/-- `replace(/\s+/g, '_')`: each maximal whitespace run becomes one underscore
(`prevSpace` tracks whether the previous character belonged to a run). -/
def squashSpaces : Bool → List Char → List Char
  | _, [] => []
  | prevSpace, c :: rest =>
    if isJsSpace c then
      if prevSpace then squashSpaces true rest else '_' :: squashSpaces true rest
    else c :: squashSpaces false rest

/-- `key.replace(/\s+/g, '_').replace(/[^a-zA-Z0-9_]/g, '').toLowerCase()`:
the sanitised series key used for `chartConfig` entries. -/
def sanitizeKey (s : String) : String :=
  jsToLower ⟨(squashSpaces false s.data).filter (fun c => isWordChar c)⟩

/-- The month names used for `YYYY-MM` formatting. -/
def monthNames : List String :=
  ["Jan", "Feb", "Mar", "Apr", "May", "Jun", "Jul", "Aug", "Sep", "Oct", "Nov", "Dec"]

/-- Regex `^\d{4}-\d{2}-\d{2}$`. -/
def isDateYMD (cs : List Char) : Bool :=
  match cs with
  | [y1, y2, y3, y4, h1, m1, m2, h2, d1, d2] =>
    isDigitChar y1 && isDigitChar y2 && isDigitChar y3 && isDigitChar y4
      && h1 = '-' && isDigitChar m1 && isDigitChar m2 && h2 = '-'
      && isDigitChar d1 && isDigitChar d2
  | _ => false

/-- Regex `^\d{4}-\d{2}$`. -/
def isDateYM (cs : List Char) : Bool :=
  match cs with
  | [y1, y2, y3, y4, h1, m1, m2] =>
    isDigitChar y1 && isDigitChar y2 && isDigitChar y3 && isDigitChar y4
      && h1 = '-' && isDigitChar m1 && isDigitChar m2
  | _ => false

/-- Regex `^\d{4}-Q[1-4]$`. -/
def isDateYQ (cs : List Char) : Bool :=
  match cs with
  | [y1, y2, y3, y4, h1, q, d] =>
    isDigitChar y1 && isDigitChar y2 && isDigitChar y3 && isDigitChar y4
      && h1 = '-' && q = 'Q' && ('1' ≤ d && d ≤ '4')
  | _ => false

/-- `monthNames[parseInt(month) - 1]`; an out-of-range index gives JS
`undefined`, which the template turns into the text `undefined`. -/
def monthNameAt (m : Nat) : String :=
  if 1 ≤ m ∧ m ≤ 12 then (monthNames.get? (m - 1)).getD "undefined" else "undefined"

/-- Formatting of one time label (`fmtDate` is the oracle for
`new Date(v).toLocaleDateString('en-US', ...)`). -/
def formatTimeLabel (fmtDate : String → String) (s : String) : String :=
  if isDateYMD s.data then fmtDate s
  else if isDateYM s.data then
    match s.data with
    | [y1, y2, y3, y4, _, m1, m2] =>
      monthNameAt (digitsToNat [m1, m2]) ++ " " ++ (⟨[y1, y2, y3, y4]⟩ : String)
    | _ => s
  else if isDateYQ s.data then
    match s.data with
    | [y1, y2, y3, y4, _, q, d] =>
      (⟨[q, d]⟩ : String) ++ " " ++ (⟨[y1, y2, y3, y4]⟩ : String)
    | _ => s
  else s

/-- `item[xAxisKey] = newValue` on a row object. -/
def rowSet (r : RowObj) (k : String) (v : JsVal) : RowObj :=
  r.map (fun p => if p.1 = k then (k, v) else p)

/-- The time-label reformatting pass at the end of
`prepareDataForVisualization` (applied per data item; `xAxisKey` is the
originally selected column name). -/
def formatTimeRow (fmtDate : String → String) (xAxisKey : String) (item : RowObj) : RowObj :=
  match rowGet item xAxisKey with
  | .str s => if s ≠ "" then rowSet item xAxisKey (.str (formatTimeLabel fmtDate s)) else item
  | _ => item

/-- JS `Array.prototype.join(', ')` (for the multibar title). -/
def joinCommas : List String → String
  | [] => ""
  | [s] => s
  | s :: t :: rest => s ++ ", " ++ joinCommas (t :: rest)

/-- The x-axis selection of `prepareDataForVisualization` (`""` models the
`undefined` of an empty column list, which is equally falsy downstream). -/
def vizXAxisKey (timeColumns categoricalColumns columns : List String) : String :=
  if !timeColumns.isEmpty then timeColumns.headD ""
  else if !categoricalColumns.isEmpty then categoricalColumns.headD ""
  else columns.headD ""

/-- The default chart structure of `prepareDataForVisualization` before the
shaping branches run. -/
def vizBase (chartType : String) : VizChart :=
  { chartType := chartType, data := [],
    config := { xAxisKey := "", title := "Sales Data Analysis",
                description := "Analysis based on your query" },
    chartConfig := [] }

/-- The per-chart-type data shaping of `prepareDataForVisualization`
(`// Format data based on chart type`). -/
def vizShaped (results : List RowObj) (firstRow : RowObj) (queryLower : String)
    (chartType xAxisKey : String) (numericColumns columns : List String) : VizChart :=
  let base := vizBase chartType
  if chartType = "pie" then
    let primary := numericColumns.headD ""
    let valueColumn :=
      if primary ≠ "" then primary
      else ((columns.find? (fun col => isNumVal (rowGet firstRow col))).getD "")
    if xAxisKey ≠ "" && valueColumn ≠ "" then
      { base with
        data := results.map (fun row =>
          [("segment", JsVal.str (jsValString (rowGet row xAxisKey))),
           ("value", rowGet row valueColumn)]),
        config := { xAxisKey := "segment",
                    title := "Distribution of " ++ valueColumn ++ " by " ++ xAxisKey,
                    description := "Breakdown of " ++ valueColumn
                      ++ " across different " ++ xAxisKey ++ " categories" },
        chartConfig := results.map (fun row =>
          (sanitizeKey (jsValString (rowGet row xAxisKey)),
           jsValString (rowGet row xAxisKey))) }
    else base
  else if chartType = "multibar" then
    { base with
      data := results.map (fun row =>
        (xAxisKey, rowGet row xAxisKey)
          :: numericColumns.map (fun col => (col, rowGet row col))),
      config := { xAxisKey := xAxisKey,
                  title := "Comparison of "
                    ++ joinCommas (numericColumns.take 3)
                    ++ (if numericColumns.length > 3 then " and others" else "")
                    ++ " by " ++ xAxisKey,
                  description := "Comparing metrics across different "
                    ++ xAxisKey ++ " values" },
      chartConfig := numericColumns.map (fun col =>
        (sanitizeKey col, formatColumnLabel col)) }
  else
    let mentioned := numericColumns.find? (fun col => jsIncludes queryLower (jsToLower col))
    let valueColumn :=
      match mentioned with
      | some col => col
      | none =>
        if numericColumns.isEmpty then ""
        else if numericColumns.any (fun col => jsIncludes (jsToLower col) "total") then
          (numericColumns.find? (fun col => jsIncludes (jsToLower col) "total")).getD ""
        else if numericColumns.any (fun col => jsIncludes (jsToLower col) "sum") then
          (numericColumns.find? (fun col => jsIncludes (jsToLower col) "sum")).getD ""
        else if numericColumns.contains "quantity" then "quantity"
        else numericColumns.headD ""
    if xAxisKey ≠ "" && valueColumn ≠ "" then
      { base with
        data := results.map (fun row =>
          [(xAxisKey, rowGet row xAxisKey), (valueColumn, rowGet row valueColumn)]),
        config := { xAxisKey := xAxisKey,
                    title :=
                      if chartType = "line" then
                        formatColumnLabel valueColumn ++ " Trend by "
                          ++ formatColumnLabel xAxisKey
                      else
                        formatColumnLabel valueColumn ++ " by "
                          ++ formatColumnLabel xAxisKey,
                    description :=
                      if chartType = "line" then
                        "How " ++ formatColumnLabel valueColumn ++ " changes over time"
                      else
                        "Comparison of " ++ formatColumnLabel valueColumn
                          ++ " across different categories" },
        chartConfig := [(sanitizeKey valueColumn, formatColumnLabel valueColumn)] }
    else base

/-- Embedding of `prepareDataForVisualization(results, nlQuery)` from
`src/lib/db.ts`.  `fmtDate` is the locale-dependent date formatter used for
full `YYYY-MM-DD` values; the function itself is otherwise pure.  No
statement in the embedded body can throw, so the `try`/`catch` of the source
never produces the `null` of its `catch` arm.  Two association-list
simplifications relative to JS object semantics, which no claim below
depends on: the pie `chartConfig` keeps one entry per row where the source
object would overwrite repeated sanitised segment keys, and a multibar data
point lists the x-axis key again if it is also a numeric column, where the
source object would overwrite the single property. -/
def prepareDataForVisualization (fmtDate : String → String)
    (results : List RowObj) (nlQuery : String) : Option VizChart :=
  match results with
  | [] => none
  | firstRow :: _ =>
    let queryLower := jsToLower nlQuery
    let columns := rowKeys firstRow
    let timeColumns := vizTimeColumns columns
    let hasTimeColumn := !timeColumns.isEmpty
    let numericColumns := vizNumericCols firstRow columns
    let categoricalColumns := vizCategoricalCols firstRow columns
    let chartType :=
      vizChartType queryLower results.length hasTimeColumn numericColumns categoricalColumns
    let xAxisKey := vizXAxisKey timeColumns categoricalColumns columns
    let shaped := vizShaped results firstRow queryLower chartType xAxisKey numericColumns columns
    if hasTimeColumn && shaped.data.length > 0 then
      some { shaped with data := shaped.data.map (formatTimeRow fmtDate xAxisKey) }
    else some shaped
/-! ### `/lib/sql-query-generator.ts` — schema catalog and `determineColumns`,
claim C3 -/

/-- One column of the schema catalog. -/
structure DbColumn where
  name : String
  dbName : String
  type : String
  description : String
  isNullable : Bool
deriving DecidableEq

/-- One table of the schema catalog. -/
structure DbTableSchema where
  tableName : String
  dbTableName : String
  description : String
  columns : List DbColumn
deriving DecidableEq

/-- The `sales_data` schema. -/
def salesDataSchema : DbTableSchema :=
  { tableName := "sales_data", dbTableName := "sales_data",
    description := "List of sales transactions",
    columns :=
      [⟨"key", "key", "int", "Unique identifier of the transaction", false⟩,
       ⟨"country", "country", "nvarchar", "Country of the store", false⟩,
       ⟨"region", "region", "nvarchar", "Region of the store", false⟩,
       ⟨"city", "city", "nvarchar", "City of the store", false⟩,
       ⟨"store_id", "store_id", "int", "Unique identifier of the store", false⟩,
       ⟨"store_name", "store_name", "nvarchar", "Name of the store", false⟩,
       ⟨"sales_order_number", "sales_order_number", "nvarchar", "Sales order unique identifier", false⟩,
       ⟨"sales_date", "sales_date", "date", "Date of the sales order", false⟩,
       ⟨"product_name", "product_name", "nvarchar", "Name of the product sold", false⟩,
       ⟨"quantity", "quantity", "int", "Quantity of the product sold", false⟩,
       ⟨"unit_price", "unit_price", "decimal", "Price of the product", false⟩,
       ⟨"total_product_cost", "total_product_cost", "decimal", "Total cost of the product", false⟩,
       ⟨"material_cost", "material_cost", "decimal", "Cost of the materials used to make the product", false⟩,
       ⟨"shipping_cost", "shipping_cost", "decimal", "Cost of shipping the product", false⟩,
       ⟨"total_cost", "total_cost", "decimal", "Total cost of the product", false⟩,
       ⟨"sales_type", "sales_type", "nvarchar", "Type of sales (instore or delivery)", false⟩,
       ⟨"delivery_fee", "delivery_fee", "decimal", "Fee for the delivery of the product", false⟩,
       ⟨"delivery_duration_mins", "delivery_duration_mins", "int", "Amount of time it took to deliver the product", true⟩,
       ⟨"discount_code", "discount_code", "nvarchar", "Code of the discount applied to the product", true⟩,
       ⟨"discount_percent", "discount_percent", "int", "Percentage of discount applied to the product", true⟩,
       ⟨"delivery_plate", "delivery_plate", "nvarchar", "Plate number of the delivery vehicle", true⟩] }

/-- The `product_design` schema. -/
def productDesignSchema : DbTableSchema :=
  { tableName := "product_design",
    dbTableName := "unique_products_with_materials_masterlist",
    description := "Information on materials used to produce products and associated costs",
    columns :=
      [⟨"Country", "Country", "nvarchar", "Country where the product is produced and sold", false⟩,
       ⟨"Region", "Region", "nvarchar", "Region where the product is produced and sold", false⟩,
       ⟨"City", "City", "nvarchar", "City where the product is produced and sold", false⟩,
       ⟨"Product_Name", "Product_Name", "nvarchar", "Name of the product", false⟩,
       ⟨"Product_Price", "Product_Price", "decimal", "Selling price of the product", true⟩,
       ⟨"Material_Code", "Material_Code", "nvarchar", "Code of the material used to make the product", false⟩,
       ⟨"Material_Quantity", "Material_Quantity", "int", "Quantity of the material used to make the product", true⟩,
       ⟨"Material_Unit_Cost", "Material_Unit_Cost", "decimal", "Unit cost of the material used to make the product", true⟩,
       ⟨"Material_Shipping_Cost", "Material_Shipping_Cost", "decimal", "Shipping cost of the material used to make the product", true⟩,
       ⟨"total_material_cost", "total_material_cost", "decimal", "Total cost of the material used to make the product", true⟩,
       ⟨"total_material_shipping_cost", "total_material_shipping_cost", "decimal", "Total shipping cost of the material used to make the product", true⟩] }

/-- The `vehicle_master` schema. -/
def vehicleMasterSchema : DbTableSchema :=
  { tableName := "vehicle_master", dbTableName := "vehicle_master",
    description := "Information on vehicles available for delivery of products",
    columns :=
      [⟨"Country", "Country", "nvarchar", "Country where the vehicle is used", false⟩,
       ⟨"Region", "Region", "nvarchar", "Region where the vehicle is used", false⟩,
       ⟨"City", "City", "nvarchar", "City where the vehicle is used", false⟩,
       ⟨"Vehicle_Plate", "Vehicle_Plate", "nvarchar", "Plate number of the vehicle used to deliver the product", false⟩] }

/-- The `schemas` lookup object (only ever indexed with one of the three
table names produced by the table-selection rules). -/
def schemaFor (tableName : String) : DbTableSchema :=
  if tableName = "product_design" then productDesignSchema
  else if tableName = "vehicle_master" then vehicleMasterSchema
  else salesDataSchema

/-- Table selection of `generateSqlQuery` (applied to the lower-cased query). -/
def pickMainTable (sq : String) : String :=
  if jsIncludes sq "product" && jsIncludes sq "material" then "product_design"
  else if jsIncludes sq "vehicle" || (jsIncludes sq "delivery" && jsIncludes sq "plate") then
    "vehicle_master"
  else "sales_data"

/-- Join-table selection of `generateSqlQuery` (`""` models "no join"). -/
def pickJoinTable (sq : String) (mainTable : String) : String :=
  if mainTable = "sales_data" then
    if jsIncludes sq "material" || jsIncludes sq "product price"
        || jsIncludes sq "product cost" then "product_design"
    else if jsIncludes sq "vehicle" && !(jsIncludes sq "delivery plate") then "vehicle_master"
    else ""
  else ""

/-- One selected column of the query intent. -/
structure SelCol where
  tableName : String
  columnName : String
  displayName : String
  aggregate : Option String
deriving DecidableEq

/-- `col.type === 'decimal' || col.type === 'int'`. -/
def isNumericColType (t : String) : Bool := t == "decimal" || t == "int"

/-- Whether the column name or description appears in the lower-cased query. -/
def colMentioned (sq : String) (c : DbColumn) : Bool :=
  jsIncludes sq (jsToLower c.name) || jsIncludes sq (jsToLower c.description)

/-- The `SUM` selection produced for a matched numeric column. -/
def sumEntry (mainTable : String) (c : DbColumn) : SelCol :=
  ⟨mainTable, c.dbName, "total_" ++ c.name, some "SUM"⟩

/-- The `AVG` selection produced for a matched numeric column. -/
def avgEntry (mainTable : String) (c : DbColumn) : SelCol :=
  ⟨mainTable, c.dbName, "avg_" ++ c.name, some "AVG"⟩

/-- The default `SUM` selections when `total`/`sum` matched no column:
for `sales_data` with `sales` in the text, `SUM(quantity) AS total_quantity`;
otherwise the first present column of the cascade
`quantity, total_cost, total_product_cost`. -/
def sumDefaultCols (sq : String) (mainTable : String) (schema : DbTableSchema) : List SelCol :=
  if mainTable = "sales_data" then
    if jsIncludes sq "sales" then
      match schema.columns.find? (fun c => jsToLower c.name == "quantity") with
      | some col => [⟨mainTable, col.dbName, "total_quantity", some "SUM"⟩]
      | none => []
    else
      match ["quantity", "total_cost", "total_product_cost"].findSome? (fun colName =>
        (schema.columns.find? (fun c => jsToLower c.name == colName)).map
          (fun col => sumEntry mainTable col)) with
      | some e => [e]
      | none => []
  else []

/-- The default `AVG` selections: for `sales_data`, the first present column
of the cascade `unit_price, total_cost, delivery_duration_mins`. -/
def avgDefaultCols (mainTable : String) (schema : DbTableSchema) : List SelCol :=
  if mainTable = "sales_data" then
    match ["unit_price", "total_cost", "delivery_duration_mins"].findSome? (fun colName =>
      (schema.columns.find? (fun c => jsToLower c.name == colName)).map
        (fun col => avgEntry mainTable col)) with
    | some e => [e]
    | none => []
  else []

/-- The `record_count` step of `determineColumns`
(`// Check if we need to count records`). -/
def countStage (sq mainTable : String) : List SelCol :=
  if jsIncludes sq "how many" || jsIncludes sq "count" || jsIncludes sq "number of" then
    [⟨mainTable, "COUNT(*)", "record_count", some "COUNT"⟩]
  else []

/-- The `SUM` selections for the numeric columns mentioned in the query. -/
def sumMatched (sq mainTable : String) (schema : DbTableSchema) : List SelCol :=
  schema.columns.filterMap (fun c =>
    if isNumericColType c.type && colMentioned sq c then some (sumEntry mainTable c)
    else none)

/-- The `SUM` step of `determineColumns`
(`// Check for sum/total calculations`). -/
def sumStage (sq mainTable : String) (schema : DbTableSchema) (cols : List SelCol) :
    List SelCol :=
  if jsIncludes sq "total" || jsIncludes sq "sum" then
    if (cols ++ sumMatched sq mainTable schema).any (fun c => c.aggregate == some "SUM") then
      cols ++ sumMatched sq mainTable schema
    else (cols ++ sumMatched sq mainTable schema) ++ sumDefaultCols sq mainTable schema
  else cols

/-- The `AVG` selections for the numeric columns mentioned in the query. -/
def avgMatched (sq mainTable : String) (schema : DbTableSchema) : List SelCol :=
  schema.columns.filterMap (fun c =>
    if isNumericColType c.type && colMentioned sq c then some (avgEntry mainTable c)
    else none)

/-- The `AVG` step of `determineColumns`
(`// Check for average calculations`). -/
def avgStage (sq mainTable : String) (schema : DbTableSchema) (cols : List SelCol) :
    List SelCol :=
  if jsIncludes sq "average" || jsIncludes sq "avg" then
    if (cols ++ avgMatched sq mainTable schema).any (fun c => c.aggregate == some "AVG") then
      cols ++ avgMatched sq mainTable schema
    else (cols ++ avgMatched sq mainTable schema) ++ avgDefaultCols mainTable schema
  else cols

/-- The plain-selection step of `determineColumns`
(`// Add columns specifically mentioned in the query`). -/
def plainStage (sq mainTable : String) (schema : DbTableSchema) (cols : List SelCol) :
    List SelCol :=
  schema.columns.foldl (fun acc c =>
    if c.name == "created_at" || c.name == "updated_at" then acc
    else if colMentioned sq c then
      if acc.any (fun e => e.columnName == c.dbName && e.aggregate.isSome) then acc
      else acc ++ [(⟨mainTable, c.dbName, c.name, none⟩ : SelCol)]
    else acc) cols

/-- The join-table step of `determineColumns`
(`// If joining with another table, add relevant columns from there too`). -/
def joinStage (sq joinTable : String) (cols : List SelCol) : List SelCol :=
  if joinTable ≠ "" then
    cols ++ (schemaFor joinTable).columns.filterMap (fun c =>
      if c.name == "created_at" || c.name == "updated_at" then none
      else if colMentioned sq c then
        some (⟨joinTable, c.dbName, joinTable ++ "_" ++ c.name, none⟩ : SelCol)
      else none)
  else cols

/-- The default-projection step of `determineColumns`
(`// If no columns selected yet, add some sensible defaults`). -/
def emptyDefaultStage (mainTable : String) (schema : DbTableSchema) (cols : List SelCol) :
    List SelCol :=
  if cols.isEmpty then
    if mainTable == "sales_data" then
      ["sales_date", "product_name", "quantity", "unit_price", "total_cost"].filterMap
        (fun colName =>
          (schema.columns.find? (fun c => jsToLower c.name == jsToLower colName)).map
            (fun col => (⟨mainTable, col.dbName, col.name, none⟩ : SelCol)))
    else
      schema.columns.filterMap (fun c =>
        if c.name ≠ "created_at" && c.name ≠ "updated_at" then
          some (⟨mainTable, c.dbName, c.name, none⟩ : SelCol)
        else none)
  else cols

/-- Embedding of `determineColumns(query, mainTable, joinTable)` from the
embedded `/lib/sql-query-generator.ts`, as the composition of its source
blocks in order (the function lower-cases its argument again). -/
def determineColumns (query : String) (mainTable joinTable : String) : List SelCol :=
  emptyDefaultStage mainTable (schemaFor mainTable)
    (joinStage (jsToLower query) joinTable
      (plainStage (jsToLower query) mainTable (schemaFor mainTable)
        (avgStage (jsToLower query) mainTable (schemaFor mainTable)
          (sumStage (jsToLower query) mainTable (schemaFor mainTable)
            (countStage (jsToLower query) mainTable)))))

/-- The `sales by product` special case trigger. -/
def isSalesByProductQ (sq : String) : Bool :=
  jsIncludes sq "sales by product" || (jsIncludes sq "sales" && jsIncludes sq "product")

/-- The `sales by product` special case of `generateSqlQuery`: adds
`SUM(quantity) AS total_quantity` when no aggregate was selected. -/
def salesByProductAddition (sq mainTable : String) (cols : List SelCol) : List SelCol :=
  if isSalesByProductQ sq && !(cols.any (fun c => c.aggregate.isSome)) then
    match (schemaFor mainTable).columns.find? (fun c => jsToLower c.name == "quantity") with
    | some qc => cols ++ [⟨mainTable, qc.dbName, "total_quantity", some "SUM"⟩]
    | none => cols
  else cols

/-- The selected columns of `generateSqlQuery(userQuery)` (the special case
applied to the `determineColumns` result). -/
def analyzerSelectedColumns (userQuery : String) : List SelCol :=
  salesByProductAddition (jsToLower userQuery) (pickMainTable (jsToLower userQuery))
    (determineColumns (jsToLower userQuery) (pickMainTable (jsToLower userQuery))
      (pickJoinTable (jsToLower userQuery) (pickMainTable (jsToLower userQuery))))

/-- The predicate counted by claim C3: a `SUM` aggregate on the column whose
storage name is `dbName`. -/
def isSumOn (dbName : String) (e : SelCol) : Bool :=
  e.aggregate == some "SUM" && e.columnName == dbName

/-! ### `src/app/api/finance/route.ts` — `needsDataExplanation` and
`getDataExplanation`, claims C4 and C10 -/

/-- The filter of `needsDataExplanation`:
`typeof val === 'number' || (typeof val === 'string' && !isNaN(parseFloat(val)))`. -/
def isNumericish (v : JsVal) : Bool :=
  isNumVal v || (isStrVal v && parseFloatOk (jsValString v))

/-- Embedding of `needsDataExplanation(responseText, queryData)` from
`src/app/api/finance/route.ts` (final version). -/
def needsDataExplanation (responseText : String) (queryData : List RowObj) : Bool :=
  if queryData.isEmpty || responseText == "" then false
  else
    let hasDataValues := queryData.any (fun row =>
      (((row.map Prod.snd).filter isNumericish).map jsValString).any
        (fun strVal => jsIncludes responseText strVal))
    !hasDataValues

/-- All numeric value strings of a result set, in the order the grounding
check inspects them (used to state claim C4). -/
def allNumericStrings (rows : List RowObj) : List String :=
  rows.flatMap (fun row => ((row.map Prod.snd).filter isNumericish).map jsValString)

/-- The claim-side grounding predicate of C4: true exactly when no numeric
value of the rows occurs as a substring of the response text. -/
def specNeedsDataExplanation (responseText : String) (rows : List RowObj) : Bool :=
  !(allNumericStrings rows).any (fun strVal => jsIncludes responseText strVal)

/-- Embedding of `getDataExplanation(originalResponse, queryData, nlQuery)`.
The follow-up LLM call is the oracle `llm`, receiving the data sample put in
the prompt and the original question; the second component counts the LLM
calls made.  A thrown error (including a missing `content[0]`) is the
`Except.error` case of the oracle and returns the original response. -/
def getDataExplanation (llm : List RowObj → String → Except JsThrown String)
    (originalResponse : String) (queryData : List RowObj) (nlQuery : String) :
    String × Nat :=
  let dataSample := if queryData.length > 5 then queryData.take 5 else queryData
  match llm dataSample nlQuery with
  | .ok explanation => (originalResponse ++ "\n\n" ++ explanation, 1)
  | .error _ => (originalResponse, 1)

/-- The grounding step of the `POST` orchestrator (lines 2136–2145 of
`src/app/api/finance/route.ts`): one follow-up call when the response needs an
explanation, none otherwise. -/
def explainRespStep (llm : List RowObj → String → Except JsThrown String)
    (textResponse : String) (queryData : List RowObj) (nlQuery : String) :
    String × Nat :=
  if needsDataExplanation textResponse queryData then
    getDataExplanation llm textResponse queryData nlQuery
  else (textResponse, 0)

/-! ### `src/app/api/finance/route.ts` — `POST` status codes, claim C9 -/

/-- A parsed JSON value, as far as the `POST` validation inspects it. -/
inductive JVal
  | jnull
  | jbool (b : Bool)
  | jnum (n : Int)
  | jstr (s : String)
  | jarr
  | jobj
deriving DecidableEq

/-- JS truthiness of a `JVal`. -/
def jvTruthy : JVal → Bool
  | .jnull => false
  | .jbool b => b
  | .jnum n => n ≠ 0
  | .jstr s => s ≠ ""
  | .jarr => true
  | .jobj => true

/-- `Array.isArray`. -/
def jvIsArray : JVal → Bool
  | .jarr => true
  | _ => false

/-- The `fileData` request field, as far as the status codes depend on it:
its `base64` property and an oracle for whether the decode block succeeds
(`atob`/`decodeURIComponent` and the `mediaType` accesses can throw, which the
inner `catch` turns into a 400). -/
structure FileDataModel where
  base64 : Option String
  processOk : Bool
deriving DecidableEq

/-- A value escaping the `POST` handler body: an Anthropic authentication
error, another `Error` with a message, or a non-`Error` value. -/
inductive ApiThrown
  | auth
  | errObj (msg : String)
  | nonError
deriving DecidableEq

/-- The `catch` arm of `POST`: 401 for `Anthropic.AuthenticationError`,
otherwise 500 with the extracted message. -/
def postCatch (e : ApiThrown) : Nat × Option String :=
  match e with
  | .auth => (401, some "Authentication Error")
  | .errObj m => (500, some m)
  | .nonError => (500, some "An unknown error occurred")

/-- Status code and `error` body field of the `POST` handler
(`src/app/api/finance/route.ts`, final version).  `messages`, `fileData` and
`model` are the destructured request fields (`none` = absent); `model` absent
receives the destructuring default `"claude-3-haiku-20240307"`.  `body` is
the outcome of the remainder of the `try` block (the LLM/database
orchestration), which returns a 200 response or throws. -/
def postHandler (messages : Option JVal) (fileData : Option FileDataModel)
    (model : Option JVal) (body : Except ApiThrown Unit) : Nat × Option String :=
  let modelVal : JVal := model.getD (JVal.jstr "claude-3-haiku-20240307")
  let run : Nat × Option String :=
    match body with
    | .ok _ => (200, none)
    | .error e => postCatch e
  match messages with
  | none => (400, some "Messages array is required")
  | some m =>
    if !jvTruthy m || !jvIsArray m then (400, some "Messages array is required")
    else if !jvTruthy modelVal then (400, some "Model selection is required")
    else
      match fileData with
      | some fd =>
        if (match fd.base64 with | none => true | some b => b == "") then
          (400, some "No file data")
        else if !fd.processOk then (400, some "Failed to process file content")
        else run
      | none => run

/-! ### `src/app/api/finance/route.ts` — `prepareChartDataForFrontend`,
claim C5 -/

/-- One series entry of `chartConfig`, with the properties the normalization
pass reads or writes. -/
structure SeriesCfg where
  color : Option String
  dataKey : Option String
  name : Option String
deriving DecidableEq

/-- The `margin` object filled in by the normalization pass. -/
structure MarginSpec where
  top : Int
  right : Int
  bottom : Int
  left : Int
deriving DecidableEq

/-- The `config` object of a chart reaching the normalization pass, with the
properties the pass reads or writes. -/
structure FrontendConfig where
  title : Option String
  xAxisKey : Option String
  totalLabel : Option String
  margin : Option MarginSpec
deriving DecidableEq

/-- A chart object reaching `prepareChartDataForFrontend` (each property may
be absent, as with LLM-authored charts). -/
structure FrontendChart where
  chartType : Option String
  data : Option (List RowObj)
  config : Option FrontendConfig
  chartConfig : Option (List (String × SeriesCfg))
deriving DecidableEq

/-- Working state of the normalization pass once the guards have been
passed and the missing containers were defaulted. -/
structure WorkChart where
  chartType : Option String
  data : List RowObj
  config : FrontendConfig
  chartConfig : List (String × SeriesCfg)
deriving DecidableEq

/-- The palette used for defaulted series colors. -/
def colorPalette : List String :=
  ["#3366CC", "#DC3912", "#FF9900", "#109618", "#990099",
   "#0099C6", "#DD4477", "#66AA00", "#B82E2E", "#316395"]

/-- `colorPalette[index % colorPalette.length]`. -/
def paletteAt (i : Nat) : String := (colorPalette.get? (i % colorPalette.length)).getD ""

/-- Title defaulting (`if (!chartData.config.title) ...`). -/
def stepTitle (w : WorkChart) : WorkChart :=
  if optFalsy w.config.title then
    let dataFields := rowKeys (headRow w.data)
    let numericFields := dataFields.filter (fun f => isNumVal (rowGet (headRow w.data) f))
    let categoryFields := dataFields.filter (fun f =>
      isStrVal (rowGet (headRow w.data) f) && !jsIncludes f "date" && !jsIncludes f "time")
    match numericFields, categoryFields with
    | nf :: _, cf :: _ =>
      { w with config := { w.config with
          title := some (underscoreToSpace nf ++ " by " ++ underscoreToSpace cf) } }
    | _, _ => { w with config := { w.config with title := some "Data Analysis" } }
  else w

/-- The value assigned to a missing `xAxisKey`: the first string field other
than `value`/`segment`, else `dataFields[0]` (`none` models the `undefined`
assigned when the first row has no fields). -/
def xCand (data : List RowObj) : Option String :=
  let dataFields := rowKeys (headRow data)
  let categoryFields := dataFields.filter (fun f =>
    isStrVal (rowGet (headRow data) f) && f ≠ "value" && f ≠ "segment")
  match categoryFields with
  | c :: _ => some c
  | [] => dataFields.head?

/-- xAxisKey defaulting (`if (!chartData.config.xAxisKey) ...`). -/
def stepX (w : WorkChart) : WorkChart :=
  if optFalsy w.config.xAxisKey then
    { w with config := { w.config with xAxisKey := xCand w.data } }
  else w

/-- `field !== chartData.config.xAxisKey` (comparison with a possibly
undefined key). -/
def xMatch (xk : Option String) (f : String) : Bool :=
  match xk with
  | some k => f ≠ k
  | none => true

/-- The numeric fields eligible as a defaulted bar series / pie value. -/
def numericSeriesCands (data : List RowObj) (xk : Option String) : List String :=
  (rowKeys (headRow data)).filter (fun f =>
    isNumVal (rowGet (headRow data) f) && xMatch xk f)

/-- Bar-series defaulting (`if (chartData.chartType === 'bar' &&
Object.keys(chartData.chartConfig).length === 0) ...`). -/
def stepBar (w : WorkChart) : WorkChart :=
  if w.chartType == some "bar" && w.chartConfig.isEmpty then
    match numericSeriesCands w.data w.config.xAxisKey with
    | sk :: _ =>
      { w with chartConfig :=
          [(sk, ⟨some "#3366CC", some sk, some (underscoreToSpace sk)⟩)] }
    | [] => w
  else w

/-- The body of the first `Object.entries(chartData.chartConfig).forEach`
loop: default the color from the palette by entry index, then default the
per-entry `dataKey` to the entry key. -/
def ccColorsF (cc : List (String × SeriesCfg)) : List (String × SeriesCfg) :=
  cc.enum.map (fun p =>
    let s1 := if optFalsy p.2.2.color then { p.2.2 with color := some (paletteAt p.1) }
      else p.2.2
    let s2 := if optFalsy s1.dataKey then { s1 with dataKey := some p.2.1 } else s1
    (p.2.1, s2))

/-- Color and per-entry `dataKey` defaulting. -/
def stepColors (w : WorkChart) : WorkChart :=
  { w with chartConfig := ccColorsF w.chartConfig }

/-- `'segment' in item && 'value' in item`. -/
def hasSegValue (item : RowObj) : Bool :=
  (rowKeys item).contains "segment" && (rowKeys item).contains "value"

/-- One reshaped pie data item: `{segment: item[xAxisKey], value: item[valueKey]}`. -/
def pieRow (kx vk : String) (item : RowObj) : RowObj :=
  [("segment", rowGet item kx), ("value", rowGet item vk)]

/-- The `chartConfig` written by the pie reformatting. -/
def pieSeriesCfg (vk : String) : List (String × SeriesCfg) :=
  [("value", ⟨some (paletteAt 0), some "value", some (underscoreToSpace vk)⟩)]

/-- Pie data reformatting (`if (!hasCorrectFormat) ...` inside the pie
branch). -/
def stepPieReshape (w : WorkChart) : WorkChart :=
  if w.chartType == some "pie" then
    if !(w.data.all hasSegValue) then
      if !(numericSeriesCands w.data w.config.xAxisKey).isEmpty
          && !optFalsy w.config.xAxisKey then
        { w with
          data := w.data.map
            (pieRow (w.config.xAxisKey.getD "")
              ((numericSeriesCands w.data w.config.xAxisKey).headD "")),
          config := { w.config with xAxisKey := some "segment" },
          chartConfig :=
            pieSeriesCfg ((numericSeriesCands w.data w.config.xAxisKey).headD "") }
      else w
    else w
  else w

/-- `totalLabel` defaulting for pie charts. -/
def stepTotalLabel (w : WorkChart) : WorkChart :=
  if w.chartType == some "pie" then
    if optFalsy w.config.totalLabel then
      { w with config := { w.config with totalLabel := some "Total" } }
    else w
  else w

/-- The pie branch (`if (chartData.chartType === 'pie') ...`): data
reformatting when needed, then the `totalLabel` default.  (The reshaping
never changes `chartType`, so guarding the two halves separately is
equivalent to the source's single guard.) -/
def stepPie (w : WorkChart) : WorkChart :=
  stepTotalLabel (stepPieReshape w)

/-- The body of the `Object.values(chartData.chartConfig)` loop: default a
still-missing `dataKey` to the first series key (`seriesKeys` stays constant
during the loop). -/
def ccDK (cc : List (String × SeriesCfg)) : List (String × SeriesCfg) :=
  match cc.map Prod.fst with
  | [] => cc
  | k0 :: _ => cc.map (fun p =>
      if optFalsy p.2.dataKey then (p.1, { p.2 with dataKey := some k0 }) else p)

/-- Common `dataKey` defaulting. -/
def stepDataKey (w : WorkChart) : WorkChart :=
  { w with chartConfig := ccDK w.chartConfig }

/-- Margin defaulting (`if (!chartData.config.margin) ...`). -/
def stepMargin (w : WorkChart) : WorkChart :=
  if w.config.margin.isNone then
    { w with config := { w.config with margin := some ⟨20, 30, 50, 60⟩ } }
  else w

/-- The normalization body in source order. -/
def pipelineW (w : WorkChart) : WorkChart :=
  stepMargin (stepDataKey (stepPie (stepColors (stepBar (stepX (stepTitle w))))))

/-- Embedding of `prepareChartDataForFrontend(chartData)` from
`src/app/api/finance/route.ts` (final version).  `none` is the `null`/falsy
chart input and the `null` returns. -/
def prepareChartDataForFrontend (c : Option FrontendChart) : Option FrontendChart :=
  match c with
  | none => none
  | some cd =>
    let ct := if optFalsy cd.chartType then some "bar" else cd.chartType
    match cd.data with
    | none => none
    | some [] => none
    | some (r :: rs) =>
      let w : WorkChart :=
        { chartType := ct, data := r :: rs,
          config := cd.config.getD ⟨none, none, none, none⟩,
          chartConfig := cd.chartConfig.getD [] }
      let w1 := pipelineW w
      some { chartType := w1.chartType, data := some w1.data,
             config := some w1.config, chartConfig := some w1.chartConfig }

/-! ### Fixed-point predicates for the C5 idempotence proof -/

/-- A `chartConfig` entry the color/dataKey loop leaves unchanged: its color
is non-falsy, and its `dataKey` is non-falsy or already equals its key. -/
def ccEntryOk (p : String × SeriesCfg) : Prop :=
  optFalsy p.2.color = false ∧ (optFalsy p.2.dataKey = false ∨ p.2.dataKey = some p.1)

/-- `stepX` leaves the chart unchanged: the x-axis key is already truthy or
already equals the value the step would assign. -/
def xOk (w : WorkChart) : Prop :=
  optFalsy w.config.xAxisKey = false ∨ w.config.xAxisKey = xCand w.data

/-- `stepBar` leaves the chart unchanged. -/
def barOk (w : WorkChart) : Prop :=
  (w.chartType == some "bar" && w.chartConfig.isEmpty) = false
    ∨ numericSeriesCands w.data w.config.xAxisKey = []

/-- `stepPieReshape` leaves the chart unchanged. -/
def reshapeOk (w : WorkChart) : Prop :=
  (w.chartType == some "pie") = false
    ∨ w.data.all hasSegValue = true
    ∨ (!(numericSeriesCands w.data w.config.xAxisKey).isEmpty
        && !optFalsy w.config.xAxisKey) = false

/-- `stepTotalLabel` leaves the chart unchanged. -/
def tlOk (w : WorkChart) : Prop :=
  (w.chartType == some "pie") = false ∨ optFalsy w.config.totalLabel = false

/-! ## Theorems -/

/-! ### Generic helper lemmas -/

theorem charOfNat_toNat {n : Nat} (h : n < 55296) : (Char.ofNat n).toNat = n := by
  have hv : n.isValidChar := Or.inl h
  simp [Char.ofNat, hv]
  rfl

theorem mem_natDigitsRev_isDigit : ∀ (n : Nat), ∀ c ∈ natDigitsRev n, isDigitChar c = true := by
  intro n
  induction n using Nat.strong_induction_on with
  | _ n ih =>
    intro c hc
    rw [natDigitsRev] at hc
    by_cases h : n < 10
    · simp [h] at hc
      subst hc
      simp [isDigitChar, Char.le_def]
      constructor
      · show (48 : Nat) ≤ (Char.ofNat (48 + n)).toNat
        rw [charOfNat_toNat (by omega)]
        omega
      · show (Char.ofNat (48 + n)).toNat ≤ 57
        rw [charOfNat_toNat (by omega)]
        omega
    · simp [h] at hc
      rcases hc with hc | hc
      · subst hc
        have hm : n % 10 < 10 := Nat.mod_lt _ (by omega)
        simp [isDigitChar, Char.le_def]
        constructor
        · show (48 : Nat) ≤ (Char.ofNat (48 + n % 10)).toNat
          rw [charOfNat_toNat (by omega)]
          omega
        · show (Char.ofNat (48 + n % 10)).toNat ≤ 57
          rw [charOfNat_toNat (by omega)]
          omega
      · exact ih (n / 10) (Nat.div_lt_self (by omega) (by omega)) c hc

theorem qmark_not_mem_paramMarker (i : Nat) : '?' ∉ paramMarker i := by
  intro hmem
  rw [paramMarker] at hmem
  simp only [List.mem_cons] at hmem
  rcases hmem with h | h | h
  · exact absurd h (by decide)
  · exact absurd h (by decide)
  · have := mem_natDigitsRev_isDigit i '?' (List.mem_reverse.mp h)
    simp [isDigitChar] at this

theorem replaceFirstChar_append_left (c : Char) (r u v : List Char) (h : c ∉ u) :
    replaceFirstChar c r (u ++ v) = u ++ replaceFirstChar c r v := by
  induction u with
  | nil => rfl
  | cons x xs ih =>
    have hx : ¬(x = c) := by
      intro he
      exact h (he ▸ List.mem_cons_self x xs)
    simp only [List.cons_append, replaceFirstChar, if_neg hx, List.append_eq]
    rw [ih (fun hm => h (List.mem_cons_of_mem x hm))]

theorem replaceFirstChar_hit (c : Char) (r u v : List Char) (h : c ∉ u) :
    replaceFirstChar c r (u ++ c :: v) = u ++ r ++ v := by
  rw [replaceFirstChar_append_left c r u _ h]
  simp [replaceFirstChar]

theorem foldl_replace_pref (L : List Nat) (u : List Char) (h : '?' ∉ u) :
    ∀ cs : List Char,
      L.foldl (fun acc i => replaceFirstChar '?' (paramMarker i) acc) (u ++ cs)
        = u ++ L.foldl (fun acc i => replaceFirstChar '?' (paramMarker i) acc) cs := by
  induction L with
  | nil => intro cs; rfl
  | cons i L ih =>
    intro cs
    simp only [List.foldl_cons]
    rw [replaceFirstChar_append_left '?' (paramMarker i) u cs h]
    exact ih (replaceFirstChar '?' (paramMarker i) cs)

theorem prep_render : ∀ (segs : List (List Char)) (start : Nat), segs ≠ [] →
    (∀ s ∈ segs, '?' ∉ s) →
    (List.range' start (segs.length - 1)).foldl
        (fun acc i => replaceFirstChar '?' (paramMarker i) acc) (joinQ segs)
      = renderSegs segs start := by
  intro segs
  induction segs with
  | nil => intro start h; exact absurd rfl h
  | cons s rest ih =>
    intro start _ hfree
    match rest with
    | [] => rfl
    | t :: rest2 =>
      have hs : '?' ∉ s := hfree s (List.mem_cons_self s _)
      have hlen : (s :: t :: rest2).length - 1 = rest2.length + 1 := by simp
      rw [hlen, List.range'_succ, List.foldl_cons]
      show (List.range' (start + 1) rest2.length).foldl
          (fun acc i => replaceFirstChar '?' (paramMarker i) acc)
          (replaceFirstChar '?' (paramMarker start) (joinQ (s :: t :: rest2)))
        = renderSegs (s :: t :: rest2) start
      have hjq : joinQ (s :: t :: rest2) = s ++ '?' :: joinQ (t :: rest2) := rfl
      rw [hjq, replaceFirstChar_hit '?' (paramMarker start) s _ hs]
      have hfree2 : '?' ∉ s ++ paramMarker start := by
        intro hmem
        rcases List.mem_append.mp hmem with hm | hm
        · exact hs hm
        · exact qmark_not_mem_paramMarker start hm
      rw [foldl_replace_pref _ _ hfree2]
      have hlen2 : rest2.length = (t :: rest2).length - 1 := by simp
      rw [hlen2, ih (start + 1) (by simp) (fun x hx => hfree x (List.mem_cons_of_mem s hx))]
      rw [renderSegs, List.append_assoc]

theorem count_joinQ (segs : List (List Char)) (hfree : ∀ s ∈ segs, '?' ∉ s) :
    (joinQ segs).count '?' = segs.length - 1 := by
  induction segs with
  | nil => rfl
  | cons s rest ih =>
    have hs : (s.count '?') = 0 := by
      rw [List.count_eq_zero]
      exact fun h => hfree s (List.mem_cons_self s rest) h
    match rest with
    | [] => simpa using hs
    | t :: rest2 =>
      have : joinQ (s :: t :: rest2) = s ++ '?' :: joinQ (t :: rest2) := rfl
      rw [this, List.count_append, hs, List.count_cons_self,
        ih (fun x hx => hfree x (List.mem_cons_of_mem s hx))]
      simp

/-- C8: for a SQL text with exactly `N` `?` placeholders (written as `N + 1`
placeholder-free segments joined by `?`) and a parameter list of length `N`,
`query` registers parameter `i` under the name `p<i>` (in order) and replaces
the `i`-th leftmost `?` by `@p<i>`, so each placeholder consumes exactly one
parameter, left to right. -/
theorem claim_C8_placeholder_substitution {α : Type} (segs : List (List Char)) (params : List α)
    (hne : segs ≠ []) (hfree : ∀ s ∈ segs, '?' ∉ s)
    (hlen : segs.length = params.length + 1) :
    ((joinQ segs).count '?' = params.length
      ∧ (queryPrepare ⟨joinQ segs⟩ params).sqlText = renderSegs segs 0)
      ∧ (queryPrepare ⟨joinQ segs⟩ params).inputs.map Prod.fst
          = (List.range params.length).map paramName
      ∧ (queryPrepare ⟨joinQ segs⟩ params).inputs.map Prod.snd = params := by
  refine ⟨⟨?_, ?_⟩, ?_, ?_⟩
  · rw [count_joinQ segs hfree, hlen]
    simp
  · show (List.range params.length).foldl
        (fun acc i => replaceFirstChar '?' (paramMarker i) acc) (joinQ segs)
      = renderSegs segs 0
    have hl : params.length = segs.length - 1 := by omega
    rw [List.range_eq_range', hl]
    exact prep_render segs 0 hne hfree
  · show (params.enum.map (fun p => (paramName p.1, p.2))).map Prod.fst = _
    rw [List.map_map]
    have h1 : (Prod.fst ∘ fun p : Nat × α => (paramName p.1, p.2))
        = paramName ∘ Prod.fst := rfl
    rw [h1, ← List.map_map, List.enum_map_fst]
  · show (params.enum.map (fun p => (paramName p.1, p.2))).map Prod.snd = _
    rw [List.map_map]
    have h1 : (Prod.snd ∘ fun p : Nat × α => (paramName p.1, p.2)) = Prod.snd := rfl
    rw [h1, List.enum_map_snd]

/-- Witness for C8 at a concrete two-placeholder query. -/
theorem claim_C8_witness :
    ((joinQ ["a=".data, " and b=".data, "".data]).count '?' = 2
      ∧ (queryPrepare ⟨joinQ ["a=".data, " and b=".data, "".data]⟩ [(10 : Int), 20]).sqlText
          = renderSegs ["a=".data, " and b=".data, "".data] 0)
      ∧ (queryPrepare ⟨joinQ ["a=".data, " and b=".data, "".data]⟩ [(10 : Int), 20]).inputs.map
          Prod.fst = (List.range 2).map paramName
      ∧ (queryPrepare ⟨joinQ ["a=".data, " and b=".data, "".data]⟩ [(10 : Int), 20]).inputs.map
          Prod.snd = [10, 20] :=
  claim_C8_placeholder_substitution ["a=".data, " and b=".data, "".data] [(10 : Int), 20]
    (by decide) (by decide) (by decide)

/-- C7: `executeNaturalLanguageQuery` never throws (it is a total function of
its oracle): with an absent or empty `sql` it returns the structured
`No SQL query provided` failure; when the database execution throws an
`Error` it returns a failure carrying that error message (and the fixed
fallback message for a non-`Error` value); and on success it returns the
result rows with `rowCount` equal to their number. -/
theorem claim_C7_structured_errors {α β : Type}
    (dbQuery : String → List α → Except JsThrown (Option (List β)))
    (queryData : NLQueryInput α) :
    (queryData.sql.getD "" = "" →
      executeNaturalLanguageQuery dbQuery queryData
        = .fail "No SQL query provided" "Failed to generate SQL query")
    ∧ (∀ m, queryData.sql.getD "" ≠ "" →
        dbQuery (queryData.sql.getD "") (queryData.params.getD []) = .error (.errObj m) →
        executeNaturalLanguageQuery dbQuery queryData
          = .fail m "An error occurred while executing your query.")
    ∧ (queryData.sql.getD "" ≠ "" →
        dbQuery (queryData.sql.getD "") (queryData.params.getD []) = .error .nonError →
        executeNaturalLanguageQuery dbQuery queryData
          = .fail "Unknown error occurred" "An error occurred while executing your query.")
    ∧ (∀ recordset, queryData.sql.getD "" ≠ "" →
        dbQuery (queryData.sql.getD "") (queryData.params.getD []) = .ok recordset →
        ∃ explanation,
          executeNaturalLanguageQuery dbQuery queryData
            = .ok (recordset.getD []) (recordset.getD []).length explanation
                (queryData.sql.getD "")) := by
  refine ⟨?_, ?_, ?_, ?_⟩
  · intro h
    rw [executeNaturalLanguageQuery]
    simp [h]
  · intro m h hdb
    rw [executeNaturalLanguageQuery]
    simp only [if_neg h, hdb]
  · intro h hdb
    rw [executeNaturalLanguageQuery]
    simp only [if_neg h, hdb]
  · intro recordset h hdb
    rw [executeNaturalLanguageQuery]
    simp only [if_neg h, hdb]
    have hc : (recordset.map List.length).getD 0 = (recordset.getD []).length := by
      cases recordset <;> rfl
    rw [hc]
    exact ⟨_, rfl⟩

/-- Witness for C7: a database oracle that throws an `Error` with message
`boom`, on a query object with a present SQL text. -/
theorem claim_C7_witness :
    executeNaturalLanguageQuery
        (fun (_ : String) (_ : List Int) => (.error (.errObj "boom") : Except JsThrown (Option (List Int))))
        ⟨some "select 1", none⟩
      = .fail "boom" "An error occurred while executing your query." :=
  (claim_C7_structured_errors _ _).2.1 "boom" (by decide) rfl

/-- C1: for a query (after the lower-case/trim normalization the function
applies) that does not start with `show`/`display`, contains none of the
explicit visualization substrings, and does not satisfy the
`[metric] by [category]` pattern with more than one row, if it contains a
comparison/ranking term and the explicit-count regex
`(top|bottom|highest|lowest|most|least)\s+(\d+)` extracts the count `n`, then
`shouldCreateVisualization` (with no chart tool call made) returns `true`
exactly when `n > 3`, regardless of the number of result rows. -/
theorem claim_C1_explicit_count (rows : List RowObj) (q nq : String) (n : Nat)
    (hnq : nq = jsTrim (jsToLower q))
    (h1 : jsStartsWith nq "show" = false)
    (h2 : jsStartsWith nq "display" = false)
    (h3 : jsIncludes nq "show me" = false)
    (h4 : jsIncludes nq "visual" = false)
    (h5 : ∀ k ∈ vizKeywords, jsIncludes nq k = false)
    (h6 : byCategoryPattern nq rows = false)
    (h7 : comparisonKeywords.any (fun k => jsIncludes nq k) = true)
    (h8 : extractTopCount nq = some n) :
    shouldCreateVisualization false rows q = decide (n > 3) := by
  have hv : vizKeywords.any (fun k => jsIncludes nq k) = false := by
    rw [List.any_eq_false]
    intro k hk
    simp [h5 k hk]
  subst hnq
  rw [shouldCreateVisualization]
  simp only [Bool.false_eq_true, if_false, h1, h2, h3, h4, hv, h6, h7, h8,
    Bool.or_self, Bool.or_false, Bool.false_or, if_true]

/-- Witness for C1: the spec scenario `top 2 countries by sales` on a two-row
result set returns `false`. -/
theorem claim_C1_witness :
    shouldCreateVisualization false
        [[("country", JsVal.str "aa"), ("total_sales", JsVal.num 5)],
         [("country", JsVal.str "bb"), ("total_sales", JsVal.num 7)]]
        "top 2 countries by sales"
      = false := by
  have h := claim_C1_explicit_count
    [[("country", JsVal.str "aa"), ("total_sales", JsVal.num 5)],
     [("country", JsVal.str "bb"), ("total_sales", JsVal.num 7)]]
    "top 2 countries by sales" (jsTrim (jsToLower "top 2 countries by sales")) 2
    rfl (by decide) (by decide) (by decide) (by decide) (by decide) (by decide)
    (by decide) (by decide)
  simpa using h

/-! ### Claims C2 and C6 (`prepareDataForVisualization`) -/

theorem vizShaped_chartType (results : List RowObj) (firstRow : RowObj) (queryLower : String)
    (chartType xAxisKey : String) (numericColumns columns : List String) :
    (vizShaped results firstRow queryLower chartType xAxisKey numericColumns columns).chartType
      = chartType := by
  rw [vizShaped]
  dsimp only
  repeat' split
  all_goals rfl

theorem prepare_chartType (f : String → String) (first : RowObj) (rest : List RowObj) (q : String) :
    (prepareDataForVisualization f (first :: rest) q).map VizChart.chartType
      = some (vizChartType (jsToLower q) (first :: rest).length
          (!(vizTimeColumns (rowKeys first)).isEmpty)
          (vizNumericCols first (rowKeys first))
          (vizCategoricalCols first (rowKeys first))) := by
  rw [prepareDataForVisualization]
  split <;> simp [vizShaped_chartType]

/-- Counterexample to C2: the one-row result set
`{name: "a", v1: 1, v2: 2}` (one categorical and two numeric columns) with
the query `share` — a distribution word — selects `multibar`, not `pie`,
because the categorical-plus-several-numerics branch precedes the
distribution branch. -/
theorem claim_C2_counterexample :
    (prepareDataForVisualization (fun s => s)
        [[("name", JsVal.str "a"), ("v1", JsVal.num 1), ("v2", JsVal.num 2)]]
        "share").map VizChart.chartType = some "multibar"
    ∧ (prepareDataForVisualization (fun s => s)
        [[("name", JsVal.str "a"), ("v1", JsVal.num 1), ("v2", JsVal.num 2)]]
        "share").map VizChart.chartType ≠ some "pie" := by
  constructor
  · rfl
  · decide

/-- C2 (amended): for a non-empty result set and a query containing
distribution vocabulary, the selected chart type is `pie` provided the two
earlier branches of the decision chain do not fire: no (time column ∧ trend
vocabulary), and not (a categorical column ∧ more than one numeric column). -/
theorem claim_C2_amended (f : String → String) (first : RowObj) (rest : List RowObj) (q : String)
    (hdist : hasDistributionWord (jsToLower q) = true)
    (htr : (!(vizTimeColumns (rowKeys first)).isEmpty && hasTrendWord (jsToLower q)) = false)
    (hmb : (decide ((vizCategoricalCols first (rowKeys first)).length > 0)
        && decide ((vizNumericCols first (rowKeys first)).length > 1)) = false) :
    (prepareDataForVisualization f (first :: rest) q).map VizChart.chartType = some "pie" := by
  rw [prepare_chartType]
  rw [vizChartType]
  simp only [htr, hmb, hdist, Bool.false_eq_true, if_false, if_true]

/-- Witness for C2 (amended): one categorical column and one numeric column
with query `share` produce a pie chart. -/
theorem claim_C2_witness :
    (prepareDataForVisualization (fun s => s)
        [[("a", JsVal.str "x"), ("v", JsVal.num 1)]] "share").map VizChart.chartType
      = some "pie" := by
  have h := claim_C2_amended (fun s => s) [("a", JsVal.str "x"), ("v", JsVal.num 1)] [] "share"
    (by decide) (by decide) (by decide)
  exact h

/-- Counterexample to C6: for the one-row result set `{a: "x"}` (no numeric
value column anywhere) the selector does not return `null`: it returns a
chart object whose `data` is the empty array. -/
theorem claim_C6_counterexample :
    (prepareDataForVisualization (fun s => s) [[("a", JsVal.str "x")]] "").map VizChart.data
      = some [] := by
  rfl

/-- C6 (amended): `prepareDataForVisualization` never throws (it is a total
function of its date-formatting oracle, and nothing in the embedded body can
raise, so the `catch` arm is dead), and it returns `null` exactly for an
empty result set; when no numeric value column can be determined for a
bar/line/pie shape it instead returns a chart object with empty `data`. -/
theorem claim_C6_amended (f : String → String) (results : List RowObj) (q : String) :
    (prepareDataForVisualization f results q = none ↔ results = []) := by
  cases results with
  | nil => simp [prepareDataForVisualization]
  | cons first rest =>
    rw [prepareDataForVisualization]
    constructor
    · intro h
      exfalso
      revert h
      split <;> simp
    · intro h
      exact absurd h (by simp)

/-! ### Claims C10 and C4 (grounding check and follow-up explanation) -/

theorem take_five_sample (queryData : List RowObj) :
    (if queryData.length > 5 then queryData.take 5 else queryData) = queryData.take 5 := by
  split
  · rfl
  · rw [List.take_of_length_le (by omega)]

/-- C10: `getDataExplanation` never throws and makes exactly one follow-up
LLM call, supplying the first `min(5, n)` rows; on success it returns the
original response with the explanation appended after two newlines, and when
the call throws it returns the original response unchanged. -/
theorem claim_C10_explanation_fallback (llm : List RowObj → String → Except JsThrown String)
    (originalResponse : String) (queryData : List RowObj) (nlQuery : String) :
    getDataExplanation llm originalResponse queryData nlQuery
      = ((match llm (queryData.take 5) nlQuery with
          | .ok explanation => originalResponse ++ "\n\n" ++ explanation
          | .error _ => originalResponse), 1) := by
  rw [getDataExplanation, take_five_sample]
  match llm (queryData.take 5) nlQuery with
  | .ok e => rfl
  | .error e => rfl

theorem any_flatMap {α β : Type} (g : α → List β) (p : β → Bool) :
    ∀ l : List α, (l.flatMap g).any p = l.any (fun a => (g a).any p) := by
  intro l
  induction l with
  | nil => rfl
  | cons a l ih => simp [ih]

/-- Counterexample to C4: for a non-empty row list and the empty response
text, the code returns `false` although no numeric value of the rows occurs
in the (empty) text, so the claimed equivalence demands `true`. -/
theorem claim_C4_counterexample :
    needsDataExplanation "" [[("x", JsVal.num 1)]] = false
      ∧ specNeedsDataExplanation "" [[("x", JsVal.num 1)]] = true := by
  decide

/-- C4 (amended): for a non-empty row list, `needsDataExplanation` returns
`true` iff the response text is non-empty and no numeric value of the rows
(a number, or a string accepted by `parseFloat`, taken in its JS `String(v)`
form) occurs as a substring of it; the empty response text always yields
`false`.  When it returns `true` the orchestrator makes exactly one follow-up
LLM call supplying the first `min(5, n)` rows and appends the resulting
explanation after two newlines (keeping the text unchanged if that call
throws); when it returns `false` no follow-up call is made. -/
theorem claim_C4_amended (llm : List RowObj → String → Except JsThrown String)
    (text : String) (rows : List RowObj) (nlq : String) (hne : rows ≠ []) :
    (needsDataExplanation text rows = (!(text == "") && specNeedsDataExplanation text rows))
    ∧ (needsDataExplanation text rows = true →
        explainRespStep llm text rows nlq
          = ((match llm (rows.take 5) nlq with
              | .ok explanation => text ++ "\n\n" ++ explanation
              | .error _ => text), 1))
    ∧ (needsDataExplanation text rows = false →
        explainRespStep llm text rows nlq = (text, 0)) := by
  have hemp : rows.isEmpty = false := by
    cases rows with
    | nil => exact absurd rfl hne
    | cons r rest => rfl
  refine ⟨?_, ?_, ?_⟩
  · rw [needsDataExplanation, specNeedsDataExplanation, allNumericStrings, any_flatMap]
    rw [hemp]
    by_cases ht : text == ""
    · simp [ht]
    · simp only [ht, Bool.false_or, if_neg (by simp [ht] : ¬(false = true ∨ (text == "") = true))]
      simp
  · intro hneed
    rw [explainRespStep, if_pos hneed, getDataExplanation, take_five_sample]
    match llm (rows.take 5) nlq with
    | .ok e => rfl
    | .error e => rfl
  · intro hneed
    rw [explainRespStep, hneed]
    rfl

/-- Witness for C4 (amended): rows containing the value 12 and the response
text `abc` (which cites no value) trigger exactly one grounding call. -/
theorem claim_C4_witness :
    needsDataExplanation "abc" [[("x", JsVal.num 12)]]
        = (!(("abc" : String) == "") && specNeedsDataExplanation "abc" [[("x", JsVal.num 12)]])
      ∧ explainRespStep (fun _ _ => Except.ok "expl") "abc" [[("x", JsVal.num 12)]] "q"
          = ("abc" ++ "\n\n" ++ "expl", 1) := by
  have h := claim_C4_amended (fun _ _ => Except.ok "expl") "abc" [[("x", JsVal.num 12)]] "q"
    (by decide)
  exact ⟨h.1, by simpa using h.2.1 (by decide)⟩

/-! ### Claim C9 (`POST` status codes) -/

/-- Counterexample to C9: a request with a valid (empty) `messages` array and
no `model` field is not rejected with 400 — the destructuring default
`"claude-3-haiku-20240307"` fills the missing field, and with a successful
body the response is 200. -/
theorem claim_C9_counterexample :
    postHandler (some JVal.jarr) none none (Except.ok ()) = (200, none) := by
  rfl

/-- C9 (amended): the handler returns 400 with `Messages array is required`
whenever `messages` is absent, falsy, or not an array, and 400 with
`Model selection is required` when `model` is present but falsy; an absent
`model` receives the default model and does not produce 400.  For a valid
request without file payload, the status is 200 on success, 401 exactly when
an Anthropic authentication error escapes the body, and 500 with a
`{error: string}` body for any other escaping failure. -/
theorem claim_C9_amended (msgs : Option JVal) (fd : Option FileDataModel)
    (mdl : Option JVal) (body : Except ApiThrown Unit) :
    (msgs = none → postHandler msgs fd mdl body = (400, some "Messages array is required"))
    ∧ (∀ m, msgs = some m → (jvTruthy m = false ∨ jvIsArray m = false) →
        postHandler msgs fd mdl body = (400, some "Messages array is required"))
    ∧ (∀ m mv, msgs = some m → jvTruthy m = true → jvIsArray m = true →
        mdl = some mv → jvTruthy mv = false →
        postHandler msgs fd mdl body = (400, some "Model selection is required"))
    ∧ (∀ m, msgs = some m → jvTruthy m = true → jvIsArray m = true →
        (mdl = none ∨ ∃ mv, mdl = some mv ∧ jvTruthy mv = true) → fd = none →
        ((body = .ok () → postHandler msgs fd mdl body = (200, none))
          ∧ (body = .error .auth →
              postHandler msgs fd mdl body = (401, some "Authentication Error"))
          ∧ (∀ msg, body = .error (.errObj msg) →
              postHandler msgs fd mdl body = (500, some msg))
          ∧ (body = .error .nonError →
              postHandler msgs fd mdl body = (500, some "An unknown error occurred")))) := by
  refine ⟨?_, ?_, ?_, ?_⟩
  · intro h
    subst h
    rfl
  · intro m hm hfail
    subst hm
    rw [postHandler.eq_def]
    rcases hfail with hf | hf <;> simp [hf]
  · intro m mv hm htr har hmv hfal
    subst hm
    subst hmv
    rw [postHandler.eq_def]
    simp [htr, har, hfal]
  · intro m hm htr har hmdl hfd
    subst hm
    subst hfd
    have hmv : jvTruthy (mdl.getD (JVal.jstr "claude-3-haiku-20240307")) = true := by
      rcases hmdl with h | ⟨mv, hmv, htv⟩
      · subst h
        rfl
      · subst hmv
        exact htv
    refine ⟨?_, ?_, ?_, ?_⟩
    · intro hb
      subst hb
      rw [postHandler.eq_def]
      simp [htr, har, hmv]
    · intro hb
      subst hb
      rw [postHandler.eq_def]
      simp [htr, har, hmv, postCatch]
    · intro msg hb
      subst hb
      rw [postHandler.eq_def]
      simp [htr, har, hmv, postCatch]
    · intro hb
      subst hb
      rw [postHandler.eq_def]
      simp [htr, har, hmv, postCatch]

/-- Witness for C9 (amended): a valid request whose body raises an Anthropic
authentication error receives status 401. -/
theorem claim_C9_witness :
    postHandler (some JVal.jarr) none (some (JVal.jstr "claude-3-5-sonnet-20241022"))
        (Except.error ApiThrown.auth)
      = (401, some "Authentication Error") := by
  have h := claim_C9_amended (some JVal.jarr) none
    (some (JVal.jstr "claude-3-5-sonnet-20241022")) (Except.error ApiThrown.auth)
  exact (h.2.2.2 JVal.jarr rfl (by decide) (by decide)
    (Or.inr ⟨_, rfl, by decide⟩) rfl).2.1 rfl

/-! ### Claim C3 (natural-language query analyzer) -/

theorem jsCharLower_idem (c : Char) : jsCharLower (jsCharLower c) = jsCharLower c := by
  by_cases h : 65 ≤ c.toNat ∧ c.toNat ≤ 90
  · have h1 : jsCharLower c = Char.ofNat (c.toNat + 32) := by rw [jsCharLower, if_pos h]
    have ht : (Char.ofNat (c.toNat + 32)).toNat = c.toNat + 32 := charOfNat_toNat (by omega)
    rw [h1, jsCharLower, ht, if_neg (by omega)]
  · have h1 : jsCharLower c = c := by rw [jsCharLower, if_neg h]
    rw [h1, h1]

theorem mapLower_idem (l : List Char) :
    (l.map jsCharLower).map jsCharLower = l.map jsCharLower := by
  rw [List.map_map]
  exact List.map_congr_left (fun a _ => jsCharLower_idem a)

theorem jsToLower_idem (s : String) : jsToLower (jsToLower s) = jsToLower s := by
  show (⟨((⟨s.data.map jsCharLower⟩ : String)).data.map jsCharLower⟩ : String) = _
  rw [show ((⟨s.data.map jsCharLower⟩ : String)).data = s.data.map jsCharLower from rfl]
  rw [mapLower_idem]
  rfl

theorem countP_zero_of_all_false {l : List SelCol} {p : SelCol → Bool}
    (h : ∀ e ∈ l, p e = false) : l.countP p = 0 :=
  List.countP_eq_zero.mpr (by intro a ha; simp [h a ha])

theorem sum_filterMap_countP_zero_of_ne (sq mainTable dbn : String) (cols : List DbColumn)
    (h : ∀ c ∈ cols, c.dbName ≠ dbn) :
    (cols.filterMap (fun c =>
      if isNumericColType c.type && colMentioned sq c then some (sumEntry mainTable c)
      else none)).countP (isSumOn dbn) = 0 := by
  apply countP_zero_of_all_false
  intro e he
  rcases List.mem_filterMap.mp he with ⟨c, hc, hfc⟩
  by_cases hcond : (isNumericColType c.type && colMentioned sq c) = true
  · rw [if_pos hcond] at hfc
    obtain rfl : sumEntry mainTable c = e := Option.some.inj hfc
    simp [isSumOn, sumEntry, h c hc]
  · rw [if_neg hcond] at hfc
    exact absurd hfc (by simp)

theorem sum_filterMap_countP_one (sq mainTable : String) (cols : List DbColumn) (col : DbColumn)
    (hn : (cols.map DbColumn.dbName).Nodup) (hmem : col ∈ cols)
    (hcond : (isNumericColType col.type && colMentioned sq col) = true) :
    (cols.filterMap (fun c =>
      if isNumericColType c.type && colMentioned sq c then some (sumEntry mainTable c)
      else none)).countP (isSumOn col.dbName) = 1 := by
  induction cols with
  | nil => cases hmem
  | cons c rest ih =>
    rw [List.map_cons, List.nodup_cons] at hn
    obtain ⟨hcn, hrest⟩ := hn
    rcases List.mem_cons.mp hmem with rfl | hmemr
    · rw [List.filterMap_cons_some (by rw [if_pos hcond])]
      rw [List.countP_cons]
      rw [sum_filterMap_countP_zero_of_ne sq mainTable col.dbName rest (by
        intro x hx he
        exact hcn (he ▸ List.mem_map_of_mem DbColumn.dbName hx))]
      simp [isSumOn, sumEntry]
    · have hne : c.dbName ≠ col.dbName := by
        intro he
        exact hcn (he ▸ List.mem_map_of_mem DbColumn.dbName hmemr)
      have hcount := ih hrest hmemr
      by_cases hc : (isNumericColType c.type && colMentioned sq c) = true
      · rw [List.filterMap_cons_some (by rw [if_pos hc])]
        rw [List.countP_cons, hcount]
        simp [isSumOn, sumEntry, hne]
      · rw [List.filterMap_cons_none (by rw [if_neg hc])]
        exact hcount

theorem sumMatched_countP_one (sq mainTable : String) (schema : DbTableSchema) (col : DbColumn)
    (hn : (schema.columns.map DbColumn.dbName).Nodup) (hmem : col ∈ schema.columns)
    (hcond : (isNumericColType col.type && colMentioned sq col) = true) :
    (sumMatched sq mainTable schema).countP (isSumOn col.dbName) = 1 :=
  sum_filterMap_countP_one sq mainTable schema.columns col hn hmem hcond

theorem countStage_countP (sq mainTable dbn : String) :
    (countStage sq mainTable).countP (isSumOn dbn) = 0 := by
  rw [countStage]
  split
  · simp [isSumOn]
  · rfl

theorem sumStage_countP_one (sq mainTable : String) (schema : DbTableSchema)
    (cols : List SelCol) (col : DbColumn)
    (htot : jsIncludes sq "total" = true)
    (hn : (schema.columns.map DbColumn.dbName).Nodup) (hmem : col ∈ schema.columns)
    (hcond : (isNumericColType col.type && colMentioned sq col) = true)
    (hzero : cols.countP (isSumOn col.dbName) = 0) :
    (sumStage sq mainTable schema cols).countP (isSumOn col.dbName) = 1 := by
  have hc : (cols ++ sumMatched sq mainTable schema).countP (isSumOn col.dbName) = 1 := by
    rw [List.countP_append, hzero, sumMatched_countP_one sq mainTable schema col hn hmem hcond]
  have hany : (cols ++ sumMatched sq mainTable schema).any
      (fun c => c.aggregate == some "SUM") = true := by
    have hpos : 0 < (cols ++ sumMatched sq mainTable schema).countP (isSumOn col.dbName) := by
      omega
    obtain ⟨e, he, hpe⟩ := List.countP_pos_iff.mp hpos
    rw [List.any_eq_true]
    refine ⟨e, he, ?_⟩
    rw [isSumOn, Bool.and_eq_true] at hpe
    exact hpe.1
  rw [sumStage, if_pos (by rw [htot]; rfl), if_pos hany]
  exact hc

theorem avgMatched_countP_zero (sq mainTable dbn : String) (schema : DbTableSchema) :
    (avgMatched sq mainTable schema).countP (isSumOn dbn) = 0 := by
  apply countP_zero_of_all_false
  intro e he
  rcases List.mem_filterMap.mp he with ⟨c, hc, hfc⟩
  by_cases hcond : (isNumericColType c.type && colMentioned sq c) = true
  · rw [if_pos hcond] at hfc
    obtain rfl : avgEntry mainTable c = e := Option.some.inj hfc
    simp [isSumOn, avgEntry]
  · rw [if_neg hcond] at hfc
    exact absurd hfc (by simp)

theorem avgDefaultCols_countP_zero (mainTable dbn : String) (schema : DbTableSchema) :
    (avgDefaultCols mainTable schema).countP (isSumOn dbn) = 0 := by
  rw [avgDefaultCols]
  split
  · split
    · rename_i e heq
      obtain ⟨a, _, hfa⟩ := List.exists_of_findSome?_eq_some heq
      obtain ⟨colx, _, rfl⟩ := Option.map_eq_some'.mp hfa
      simp [isSumOn, avgEntry]
    · rfl
  · rfl

theorem avgStage_countP (sq mainTable dbn : String) (schema : DbTableSchema)
    (cols : List SelCol) :
    (avgStage sq mainTable schema cols).countP (isSumOn dbn)
      = cols.countP (isSumOn dbn) := by
  rw [avgStage]
  split
  · split
    · rw [List.countP_append, avgMatched_countP_zero]
      omega
    · rw [List.countP_append, List.countP_append, avgMatched_countP_zero,
        avgDefaultCols_countP_zero]
      omega

  · rfl

theorem plain_foldl_countP (sq mainTable dbn : String) :
    ∀ (cs : List DbColumn) (acc : List SelCol),
      (cs.foldl (fun acc c =>
        if c.name == "created_at" || c.name == "updated_at" then acc
        else if colMentioned sq c then
          if acc.any (fun e => e.columnName == c.dbName && e.aggregate.isSome) then acc
          else acc ++ [(⟨mainTable, c.dbName, c.name, none⟩ : SelCol)]
        else acc) acc).countP (isSumOn dbn) = acc.countP (isSumOn dbn) := by
  intro cs
  induction cs with
  | nil => intro acc; rfl
  | cons c rest ih =>
    intro acc
    rw [List.foldl_cons, ih]
    by_cases h1 : (c.name == "created_at" || c.name == "updated_at") = true
    · rw [if_pos h1]
    · rw [if_neg h1]
      by_cases h2 : colMentioned sq c = true
      · rw [if_pos h2]
        by_cases h3 : (acc.any fun e => e.columnName == c.dbName && e.aggregate.isSome) = true
        · rw [if_pos h3]
        · rw [if_neg h3, List.countP_append]
          simp [isSumOn]
      · rw [if_neg h2]

theorem plainStage_countP (sq mainTable dbn : String) (schema : DbTableSchema)
    (acc : List SelCol) :
    (plainStage sq mainTable schema acc).countP (isSumOn dbn) = acc.countP (isSumOn dbn) := by
  rw [plainStage]
  exact plain_foldl_countP sq mainTable dbn schema.columns acc

theorem joinStage_countP (sq joinTable dbn : String) (cols : List SelCol) :
    (joinStage sq joinTable cols).countP (isSumOn dbn) = cols.countP (isSumOn dbn) := by
  rw [joinStage]
  split
  · rw [List.countP_append]
    have hz : ((schemaFor joinTable).columns.filterMap (fun c =>
        if c.name == "created_at" || c.name == "updated_at" then none
        else if colMentioned sq c then
          some (⟨joinTable, c.dbName, joinTable ++ "_" ++ c.name, none⟩ : SelCol)
        else none)).countP (isSumOn dbn) = 0 := by
      apply countP_zero_of_all_false
      intro e he
      rcases List.mem_filterMap.mp he with ⟨c, _, hfc⟩
      by_cases h1 : (c.name == "created_at" || c.name == "updated_at") = true
      · rw [if_pos h1] at hfc
        exact absurd hfc (by simp)
      · rw [if_neg h1] at hfc
        by_cases h2 : colMentioned sq c = true
        · rw [if_pos h2] at hfc
          obtain rfl := Option.some.inj hfc
          simp [isSumOn]
        · rw [if_neg h2] at hfc
          exact absurd hfc (by simp)
    rw [hz]
    omega
  · rfl

theorem emptyDefaultStage_of_pos (mainTable : String) (schema : DbTableSchema)
    (cols : List SelCol) (p : SelCol → Bool) (h : 0 < cols.countP p) :
    emptyDefaultStage mainTable schema cols = cols := by
  obtain ⟨e, he, _⟩ := List.countP_pos_iff.mp h
  rw [emptyDefaultStage]
  cases cols with
  | nil => cases he
  | cons a l => rfl

theorem schemaFor_nodup (t : String) : ((schemaFor t).columns.map DbColumn.dbName).Nodup := by
  rw [schemaFor]
  split
  · decide
  · split
    · decide
    · decide

/-- C3: for every query containing the word `total` and the (lower-cased)
name of a numeric column of the selected main table, the analyzer's selected
columns contain exactly one `SUM` aggregate on that column — none is missing
and none is duplicated. -/
theorem claim_C3_total_sum_unique (uq : String) (col : DbColumn)
    (hmem : col ∈ (schemaFor (pickMainTable (jsToLower uq))).columns)
    (hnum : isNumericColType col.type = true)
    (hname : jsIncludes (jsToLower uq) (jsToLower col.name) = true)
    (htotal : jsIncludes (jsToLower uq) "total" = true) :
    (analyzerSelectedColumns uq).countP (isSumOn col.dbName) = 1 := by
  have hidem : jsToLower (jsToLower uq) = jsToLower uq := jsToLower_idem uq
  have hcond : (isNumericColType col.type && colMentioned (jsToLower uq) col) = true := by
    rw [Bool.and_eq_true]
    refine ⟨hnum, ?_⟩
    rw [colMentioned, Bool.or_eq_true]
    exact Or.inl hname
  have hdc : (determineColumns (jsToLower uq) (pickMainTable (jsToLower uq))
      (pickJoinTable (jsToLower uq) (pickMainTable (jsToLower uq)))).countP
      (isSumOn col.dbName) = 1 := by
    rw [determineColumns, hidem]
    have h1 : (sumStage (jsToLower uq) (pickMainTable (jsToLower uq))
        (schemaFor (pickMainTable (jsToLower uq)))
        (countStage (jsToLower uq) (pickMainTable (jsToLower uq)))).countP
        (isSumOn col.dbName) = 1 :=
      sumStage_countP_one _ _ _ _ col htotal (schemaFor_nodup _) hmem hcond
        (countStage_countP _ _ _)
    have hin : (joinStage (jsToLower uq)
        (pickJoinTable (jsToLower uq) (pickMainTable (jsToLower uq)))
        (plainStage (jsToLower uq) (pickMainTable (jsToLower uq))
          (schemaFor (pickMainTable (jsToLower uq)))
          (avgStage (jsToLower uq) (pickMainTable (jsToLower uq))
            (schemaFor (pickMainTable (jsToLower uq)))
            (sumStage (jsToLower uq) (pickMainTable (jsToLower uq))
              (schemaFor (pickMainTable (jsToLower uq)))
              (countStage (jsToLower uq) (pickMainTable (jsToLower uq))))))).countP
        (isSumOn col.dbName) = 1 := by
      rw [joinStage_countP, plainStage_countP, avgStage_countP]
      exact h1
    rw [emptyDefaultStage_of_pos _ _ _ _ (by rw [hin]; omega)]
    exact hin
  rw [analyzerSelectedColumns]
  have hany : ((determineColumns (jsToLower uq) (pickMainTable (jsToLower uq))
      (pickJoinTable (jsToLower uq) (pickMainTable (jsToLower uq)))).any
      (fun c => c.aggregate.isSome)) = true := by
    obtain ⟨e, he, hpe⟩ := List.countP_pos_iff.mp
      (show 0 < (determineColumns (jsToLower uq) (pickMainTable (jsToLower uq))
        (pickJoinTable (jsToLower uq) (pickMainTable (jsToLower uq)))).countP
        (isSumOn col.dbName) by rw [hdc]; omega)
    rw [List.any_eq_true]
    refine ⟨e, he, ?_⟩
    rw [isSumOn, Bool.and_eq_true] at hpe
    have he2 : e.aggregate = some "SUM" := by simpa using hpe.1
    rw [he2]
    rfl
  rw [salesByProductAddition, if_neg (by simp [hany])]
  exact hdc

/-- Witness for C3: the query `total quantity sold` yields exactly one
`SUM` aggregate on `quantity`. -/
theorem claim_C3_witness :
    (analyzerSelectedColumns "total quantity sold").countP (isSumOn "quantity") = 1 := by
  have h := claim_C3_total_sum_unique "total quantity sold"
    ⟨"quantity", "quantity", "int", "Quantity of the product sold", false⟩
    (by decide) (by decide) (by decide) (by decide)
  exact h

/-! ### Claim C5: frame lemmas for the normalization steps -/

theorem stepTitle_chartType (w : WorkChart) : (stepTitle w).chartType = w.chartType := by
  rw [stepTitle]
  dsimp only
  repeat' split
  all_goals rfl

theorem stepTitle_data (w : WorkChart) : (stepTitle w).data = w.data := by
  rw [stepTitle]
  dsimp only
  repeat' split
  all_goals rfl

theorem stepTitle_cc (w : WorkChart) : (stepTitle w).chartConfig = w.chartConfig := by
  rw [stepTitle]
  dsimp only
  repeat' split
  all_goals rfl

theorem stepTitle_x (w : WorkChart) : (stepTitle w).config.xAxisKey = w.config.xAxisKey := by
  rw [stepTitle]
  dsimp only
  repeat' split
  all_goals rfl

theorem stepTitle_tl (w : WorkChart) : (stepTitle w).config.totalLabel = w.config.totalLabel := by
  rw [stepTitle]
  dsimp only
  repeat' split
  all_goals rfl

theorem stepTitle_margin (w : WorkChart) : (stepTitle w).config.margin = w.config.margin := by
  rw [stepTitle]
  dsimp only
  repeat' split
  all_goals rfl

theorem stepX_chartType (w : WorkChart) : (stepX w).chartType = w.chartType := by
  rw [stepX]
  repeat' split
  all_goals rfl

theorem stepX_data (w : WorkChart) : (stepX w).data = w.data := by
  rw [stepX]
  repeat' split
  all_goals rfl

theorem stepX_cc (w : WorkChart) : (stepX w).chartConfig = w.chartConfig := by
  rw [stepX]
  repeat' split
  all_goals rfl

theorem stepX_title (w : WorkChart) : (stepX w).config.title = w.config.title := by
  rw [stepX]
  repeat' split
  all_goals rfl

theorem stepX_tl (w : WorkChart) : (stepX w).config.totalLabel = w.config.totalLabel := by
  rw [stepX]
  repeat' split
  all_goals rfl

theorem stepX_margin (w : WorkChart) : (stepX w).config.margin = w.config.margin := by
  rw [stepX]
  repeat' split
  all_goals rfl

theorem stepBar_chartType (w : WorkChart) : (stepBar w).chartType = w.chartType := by
  rw [stepBar]
  repeat' split
  all_goals rfl

theorem stepBar_data (w : WorkChart) : (stepBar w).data = w.data := by
  rw [stepBar]
  repeat' split
  all_goals rfl

theorem stepBar_config (w : WorkChart) : (stepBar w).config = w.config := by
  rw [stepBar]
  repeat' split
  all_goals rfl

theorem stepPieReshape_chartType (w : WorkChart) : (stepPieReshape w).chartType = w.chartType := by
  rw [stepPieReshape]
  repeat' split
  all_goals rfl

theorem stepPieReshape_title (w : WorkChart) : (stepPieReshape w).config.title = w.config.title := by
  rw [stepPieReshape]
  repeat' split
  all_goals rfl

theorem stepPieReshape_tl (w : WorkChart) : (stepPieReshape w).config.totalLabel = w.config.totalLabel := by
  rw [stepPieReshape]
  repeat' split
  all_goals rfl

theorem stepPieReshape_margin (w : WorkChart) : (stepPieReshape w).config.margin = w.config.margin := by
  rw [stepPieReshape]
  repeat' split
  all_goals rfl

theorem stepTotalLabel_chartType (w : WorkChart) : (stepTotalLabel w).chartType = w.chartType := by
  rw [stepTotalLabel]
  repeat' split
  all_goals rfl

theorem stepTotalLabel_data (w : WorkChart) : (stepTotalLabel w).data = w.data := by
  rw [stepTotalLabel]
  repeat' split
  all_goals rfl

theorem stepTotalLabel_cc (w : WorkChart) : (stepTotalLabel w).chartConfig = w.chartConfig := by
  rw [stepTotalLabel]
  repeat' split
  all_goals rfl

theorem stepTotalLabel_title (w : WorkChart) : (stepTotalLabel w).config.title = w.config.title := by
  rw [stepTotalLabel]
  repeat' split
  all_goals rfl

theorem stepTotalLabel_x (w : WorkChart) : (stepTotalLabel w).config.xAxisKey = w.config.xAxisKey := by
  rw [stepTotalLabel]
  repeat' split
  all_goals rfl

theorem stepTotalLabel_margin (w : WorkChart) : (stepTotalLabel w).config.margin = w.config.margin := by
  rw [stepTotalLabel]
  repeat' split
  all_goals rfl

theorem stepMargin_chartType (w : WorkChart) : (stepMargin w).chartType = w.chartType := by
  rw [stepMargin]
  repeat' split
  all_goals rfl

theorem stepMargin_data (w : WorkChart) : (stepMargin w).data = w.data := by
  rw [stepMargin]
  repeat' split
  all_goals rfl

theorem stepMargin_cc (w : WorkChart) : (stepMargin w).chartConfig = w.chartConfig := by
  rw [stepMargin]
  repeat' split
  all_goals rfl

theorem stepMargin_title (w : WorkChart) : (stepMargin w).config.title = w.config.title := by
  rw [stepMargin]
  repeat' split
  all_goals rfl

theorem stepMargin_x (w : WorkChart) : (stepMargin w).config.xAxisKey = w.config.xAxisKey := by
  rw [stepMargin]
  repeat' split
  all_goals rfl

theorem stepMargin_tl (w : WorkChart) : (stepMargin w).config.totalLabel = w.config.totalLabel := by
  rw [stepMargin]
  repeat' split
  all_goals rfl
theorem stepColors_chartType (w : WorkChart) : (stepColors w).chartType = w.chartType := rfl

theorem stepColors_data (w : WorkChart) : (stepColors w).data = w.data := rfl

theorem stepColors_config (w : WorkChart) : (stepColors w).config = w.config := rfl

theorem stepColors_cc (w : WorkChart) :
    (stepColors w).chartConfig = ccColorsF w.chartConfig := rfl

theorem stepDataKey_chartType (w : WorkChart) : (stepDataKey w).chartType = w.chartType := rfl

theorem stepDataKey_data (w : WorkChart) : (stepDataKey w).data = w.data := rfl

theorem stepDataKey_config (w : WorkChart) : (stepDataKey w).config = w.config := rfl

theorem stepDataKey_cc (w : WorkChart) : (stepDataKey w).chartConfig = ccDK w.chartConfig := rfl


theorem bool_ne_true {b : Bool} (h : ¬(b = true)) : b = false := by
  cases b
  · rfl
  · exact absurd rfl h

theorem optFalsy_some_append_by (x y : String) : optFalsy (some (x ++ " by " ++ y)) = false := by
  rw [optFalsy]
  rw [beq_eq_false_iff_ne]
  intro hcontra
  have hd := congrArg String.data hcontra
  rw [String.data_append, String.data_append] at hd
  simp at hd

theorem optFalsy_palette (i : Nat) : optFalsy (some (paletteAt i)) = false := by
  rw [optFalsy, paletteAt]
  match hg : colorPalette.get? (i % colorPalette.length) with
  | some s =>
    have hmem : s ∈ colorPalette := List.get?_mem hg
    have hall : ∀ x ∈ colorPalette, (x == "") = false := by decide
    simpa using hall s hmem
  | none =>
    exfalso
    rw [List.get?_eq_none] at hg
    have hlt : i % colorPalette.length < colorPalette.length := Nat.mod_lt _ (by decide)
    omega

theorem suffTitle (w : WorkChart) (h : optFalsy w.config.title = false) : stepTitle w = w := by
  rw [stepTitle, if_neg (by simp [h])]

theorem estTitle (w : WorkChart) : optFalsy (stepTitle w).config.title = false := by
  rw [stepTitle]
  by_cases h : optFalsy w.config.title = true
  · rw [if_pos h]
    dsimp only
    split
    · exact optFalsy_some_append_by _ _
    · rfl
  · rw [if_neg h]
    exact bool_ne_true h

theorem suffX (w : WorkChart) (h : xOk w) : stepX w = w := by
  rw [stepX]
  by_cases hf : optFalsy w.config.xAxisKey = true
  · rw [if_pos hf]
    rcases h with h | h
    · exact absurd hf (by simp [h])
    · rw [← h]
  · rw [if_neg hf]

theorem estX (w : WorkChart) : xOk (stepX w) := by
  rw [stepX]
  by_cases hf : optFalsy w.config.xAxisKey = true
  · rw [if_pos hf]
    exact Or.inr rfl
  · rw [if_neg hf]
    exact Or.inl (bool_ne_true hf)

theorem suffBar (w : WorkChart) (h : barOk w) : stepBar w = w := by
  rw [stepBar]
  by_cases hc : (w.chartType == some "bar" && w.chartConfig.isEmpty) = true
  · rw [if_pos hc]
    rcases h with h | h
    · exact absurd hc (by simp [h])
    · rw [h]
  · rw [if_neg hc]

theorem estBar (w : WorkChart) : barOk (stepBar w) := by
  rw [stepBar]
  by_cases hc : (w.chartType == some "bar" && w.chartConfig.isEmpty) = true
  · rw [if_pos hc]
    match hm : numericSeriesCands w.data w.config.xAxisKey with
    | sk :: rest =>
      exact Or.inl (by simp)
    | [] =>
      exact Or.inr hm
  · rw [if_neg hc]
    left
    exact bool_ne_true hc

theorem estColors (cc : List (String × SeriesCfg)) : ∀ p ∈ ccColorsF cc, ccEntryOk p := by
  intro p hp
  rw [ccColorsF] at hp
  rcases List.mem_map.mp hp with ⟨q, _, rfl⟩
  dsimp only
  by_cases h1 : optFalsy q.2.2.color = true
  · rw [if_pos h1]
    by_cases h2 : optFalsy q.2.2.dataKey = true
    · rw [if_pos (show optFalsy ({ q.2.2 with color := some (paletteAt q.1) } : SeriesCfg).dataKey = true from h2)]
      exact ⟨optFalsy_palette q.1, Or.inr rfl⟩
    · rw [if_neg (show ¬(optFalsy ({ q.2.2 with color := some (paletteAt q.1) } : SeriesCfg).dataKey = true) from h2)]
      exact ⟨optFalsy_palette q.1, Or.inl (bool_ne_true h2)⟩
  · rw [if_neg h1]
    by_cases h2 : optFalsy q.2.2.dataKey = true
    · rw [if_pos h2]
      exact ⟨bool_ne_true h1, Or.inr rfl⟩
    · rw [if_neg h2]
      exact ⟨bool_ne_true h1, Or.inl (bool_ne_true h2)⟩

theorem ccColorsF_go (cc : List (String × SeriesCfg)) (hok : ∀ p ∈ cc, ccEntryOk p) :
    ∀ n : Nat, (List.enumFrom n cc).map (fun p =>
      let s1 := if optFalsy p.2.2.color then { p.2.2 with color := some (paletteAt p.1) }
        else p.2.2
      let s2 := if optFalsy s1.dataKey then { s1 with dataKey := some p.2.1 } else s1
      (p.2.1, s2)) = cc := by
  induction cc with
  | nil => intro n; rfl
  | cons q rest ih =>
    intro n
    rw [List.enumFrom, List.map_cons, ih (fun p hp => hok p (List.mem_cons_of_mem q hp)) (n + 1)]
    congr 1
    obtain ⟨hcolor, hdk⟩ := hok q (List.mem_cons_self q rest)
    dsimp only
    rcases hdk with hdk | hdk
    · simp [hcolor, hdk]
    · by_cases hfls : optFalsy q.2.dataKey = true
      · simp only [hcolor, Bool.false_eq_true, if_false, hfls, if_true]
        rw [← hdk]
      · simp [hcolor, hfls]

theorem suffColors (w : WorkChart) (h : ∀ p ∈ w.chartConfig, ccEntryOk p) :
    stepColors w = w := by
  rw [stepColors]
  have hcc : ccColorsF w.chartConfig = w.chartConfig := by
    rw [ccColorsF]
    exact ccColorsF_go w.chartConfig h 0
  rw [hcc]

theorem ccDK_keys (cc : List (String × SeriesCfg)) :
    (ccDK cc).map Prod.fst = cc.map Prod.fst := by
  rw [ccDK]
  split
  · rfl
  · rw [List.map_map]
    apply List.map_congr_left
    intro p _
    dsimp only [Function.comp]
    split <;> rfl

theorem ccDK_idem (cc : List (String × SeriesCfg)) : ccDK (ccDK cc) = ccDK cc := by
  match hk : cc.map Prod.fst with
  | [] =>
    have hnil : cc = [] := List.map_eq_nil_iff.mp hk
    subst hnil
    rfl
  | k0 :: t =>
    have hdk : ccDK cc = cc.map (fun p =>
        if optFalsy p.2.dataKey then (p.1, { p.2 with dataKey := some k0 }) else p) := by
      rw [ccDK, hk]
    have hkeys : (ccDK cc).map Prod.fst = k0 :: t := by rw [ccDK_keys, hk]
    have houter : ccDK (ccDK cc) = (ccDK cc).map (fun p =>
        if optFalsy p.2.dataKey then (p.1, { p.2 with dataKey := some k0 }) else p) := by
      conv_lhs => rw [ccDK]
      rw [hkeys]
    rw [houter, hdk, List.map_map]
    apply List.map_congr_left
    intro p _
    dsimp only [Function.comp]
    by_cases h1 : optFalsy p.2.dataKey = true
    · rw [if_pos h1]
      by_cases h2 : optFalsy (some k0) = true
      · rw [if_pos h2]
      · rw [if_neg h2]
    · rw [if_neg h1, if_neg h1]

theorem ccDK_ok (cc : List (String × SeriesCfg)) (h : ∀ p ∈ cc, ccEntryOk p) :
    ∀ p ∈ ccDK cc, ccEntryOk p := by
  intro p hp
  rw [ccDK] at hp
  rcases hkm : cc.map Prod.fst with _ | ⟨k0, t⟩
  · rw [hkm] at hp
    exact h p hp
  · rw [hkm] at hp
    rcases List.mem_map.mp hp with ⟨q, hq, rfl⟩
    obtain ⟨hcolor, hdk⟩ := h q hq
    by_cases h1 : optFalsy q.2.dataKey = true
    · rw [if_pos h1]
      refine ⟨hcolor, ?_⟩
      by_cases h2 : optFalsy (some k0) = true
      · rcases hdk with hdk | hdk
        · exact absurd h1 (by simp [hdk])
        · right
          have hq1 : q.1 = "" := by
            rw [hdk] at h1
            rw [optFalsy] at h1
            simpa using h1
          have hk0 : k0 = "" := by
            rw [optFalsy] at h2
            simpa using h2
          show some k0 = some q.1
          rw [hq1, hk0]
      · exact Or.inl (bool_ne_true h2)
    · rw [if_neg h1]
      exact ⟨hcolor, hdk⟩

theorem pieSeriesCfg_ok (vk : String) : ∀ p ∈ pieSeriesCfg vk, ccEntryOk p := by
  intro p hp
  rw [pieSeriesCfg] at hp
  rcases List.mem_singleton.mp hp with rfl
  exact ⟨optFalsy_palette 0, Or.inl rfl⟩

theorem all_pieRow (l : List RowObj) (kx vk : String) :
    (l.map (pieRow kx vk)).all hasSegValue = true := by
  rw [List.all_eq_true]
  intro r hr
  rcases List.mem_map.mp hr with ⟨item, _, rfl⟩
  rfl

theorem stepPieReshape_cases (w : WorkChart) :
    stepPieReshape w = w
    ∨ ((stepPieReshape w).config.xAxisKey = some "segment"
        ∧ (stepPieReshape w).chartConfig
            = pieSeriesCfg ((numericSeriesCands w.data w.config.xAxisKey).headD "")
        ∧ (stepPieReshape w).data
            = w.data.map (pieRow (w.config.xAxisKey.getD "")
                ((numericSeriesCands w.data w.config.xAxisKey).headD ""))) := by
  rw [stepPieReshape]
  by_cases h1 : (w.chartType == some "pie") = true
  · rw [if_pos h1]
    by_cases h2 : (!w.data.all hasSegValue) = true
    · rw [if_pos h2]
      by_cases h3 : (!(numericSeriesCands w.data w.config.xAxisKey).isEmpty
          && !optFalsy w.config.xAxisKey) = true
      · rw [if_pos h3]
        right
        exact ⟨rfl, rfl, rfl⟩
      · rw [if_neg h3]
        left
        rfl
    · rw [if_neg h2]
      left
      rfl
  · rw [if_neg h1]
    left
    rfl

theorem suffReshape (w : WorkChart) (h : reshapeOk w) : stepPieReshape w = w := by
  rw [stepPieReshape]
  by_cases h1 : (w.chartType == some "pie") = true
  · rw [if_pos h1]
    rcases h with h | h | h
    · exact absurd h1 (by simp [h])
    · rw [if_neg (by simp [h])]
    · by_cases h2 : (!w.data.all hasSegValue) = true
      · rw [if_pos h2, if_neg (by simp [h])]
      · rw [if_neg h2]
  · rw [if_neg h1]

theorem estReshape (w : WorkChart) : reshapeOk (stepPieReshape w) := by
  rw [stepPieReshape]
  by_cases h1 : (w.chartType == some "pie") = true
  · rw [if_pos h1]
    by_cases h2 : (!w.data.all hasSegValue) = true
    · rw [if_pos h2]
      by_cases h3 : (!(numericSeriesCands w.data w.config.xAxisKey).isEmpty
          && !optFalsy w.config.xAxisKey) = true
      · rw [if_pos h3]
        right
        left
        exact all_pieRow w.data _ _
      · rw [if_neg h3]
        right
        right
        exact bool_ne_true h3
    · rw [if_neg h2]
      right
      left
      simpa using h2
  · rw [if_neg h1]
    left
    exact bool_ne_true h1

theorem suffTL (w : WorkChart) (h : tlOk w) : stepTotalLabel w = w := by
  rw [stepTotalLabel]
  by_cases h1 : (w.chartType == some "pie") = true
  · rw [if_pos h1]
    rcases h with h | h
    · exact absurd h1 (by simp [h])
    · rw [if_neg (by simp [h])]
  · rw [if_neg h1]

theorem estTL (w : WorkChart) : tlOk (stepTotalLabel w) := by
  rw [stepTotalLabel]
  by_cases h1 : (w.chartType == some "pie") = true
  · rw [if_pos h1]
    by_cases h2 : optFalsy w.config.totalLabel = true
    · rw [if_pos h2]
      right
      rfl
    · rw [if_neg h2]
      right
      exact bool_ne_true h2
  · rw [if_neg h1]
    left
    exact bool_ne_true h1

theorem suffMargin (w : WorkChart) (h : w.config.margin.isSome = true) : stepMargin w = w := by
  rw [stepMargin, if_neg (by simp [Option.isNone_iff_eq_none]; intro hc; rw [hc] at h; cases h)]

theorem estMargin (w : WorkChart) : (stepMargin w).config.margin.isSome = true := by
  rw [stepMargin]
  by_cases h : w.config.margin.isNone = true
  · rw [if_pos h]
    rfl
  · rw [if_neg h]
    rw [Option.isNone_iff_eq_none] at h
    rcases hm : w.config.margin with _ | m
    · exact absurd hm h
    · rfl

theorem ccColorsF_isEmpty (cc : List (String × SeriesCfg)) :
    (ccColorsF cc).isEmpty = cc.isEmpty := by
  cases cc <;> rfl

theorem ccDK_isEmpty (cc : List (String × SeriesCfg)) : (ccDK cc).isEmpty = cc.isEmpty := by
  cases cc <;> rfl

theorem presTitle_X (w : WorkChart) (h : optFalsy w.config.title = false) :
    optFalsy (stepX w).config.title = false := by
  rw [stepX_title]
  exact h

theorem presTitle_B (w : WorkChart) (h : optFalsy w.config.title = false) :
    optFalsy (stepBar w).config.title = false := by
  rw [stepBar_config]
  exact h

theorem presTitle_C (w : WorkChart) (h : optFalsy w.config.title = false) :
    optFalsy (stepColors w).config.title = false := h

theorem presTitle_R (w : WorkChart) (h : optFalsy w.config.title = false) :
    optFalsy (stepPieReshape w).config.title = false := by
  rw [stepPieReshape_title]
  exact h

theorem presTitle_L (w : WorkChart) (h : optFalsy w.config.title = false) :
    optFalsy (stepTotalLabel w).config.title = false := by
  rw [stepTotalLabel_title]
  exact h

theorem presTitle_D (w : WorkChart) (h : optFalsy w.config.title = false) :
    optFalsy (stepDataKey w).config.title = false := h

theorem presTitle_M (w : WorkChart) (h : optFalsy w.config.title = false) :
    optFalsy (stepMargin w).config.title = false := by
  rw [stepMargin_title]
  exact h

theorem presX_B (w : WorkChart) (h : xOk w) : xOk (stepBar w) := by
  show optFalsy (stepBar w).config.xAxisKey = false
    ∨ (stepBar w).config.xAxisKey = xCand (stepBar w).data
  rw [stepBar_config, stepBar_data]
  exact h

theorem presX_C (w : WorkChart) (h : xOk w) : xOk (stepColors w) := h

theorem presX_R (w : WorkChart) (h : xOk w) : xOk (stepPieReshape w) := by
  rcases stepPieReshape_cases w with hid | ⟨hx, _, _⟩
  · rw [hid]
    exact h
  · left
    rw [hx]
    rfl

theorem presX_L (w : WorkChart) (h : xOk w) : xOk (stepTotalLabel w) := by
  show optFalsy (stepTotalLabel w).config.xAxisKey = false
    ∨ (stepTotalLabel w).config.xAxisKey = xCand (stepTotalLabel w).data
  rw [stepTotalLabel_x, stepTotalLabel_data]
  exact h

theorem presX_D (w : WorkChart) (h : xOk w) : xOk (stepDataKey w) := h

theorem presX_M (w : WorkChart) (h : xOk w) : xOk (stepMargin w) := by
  show optFalsy (stepMargin w).config.xAxisKey = false
    ∨ (stepMargin w).config.xAxisKey = xCand (stepMargin w).data
  rw [stepMargin_x, stepMargin_data]
  exact h

theorem presBar_C (w : WorkChart) (h : barOk w) : barOk (stepColors w) := by
  show ((stepColors w).chartType == some "bar" && (ccColorsF w.chartConfig).isEmpty) = false
    ∨ numericSeriesCands (stepColors w).data (stepColors w).config.xAxisKey = []
  rw [ccColorsF_isEmpty]
  exact h

theorem presBar_R (w : WorkChart) (h : barOk w) : barOk (stepPieReshape w) := by
  rcases stepPieReshape_cases w with hid | ⟨_, hcc, _⟩
  · rw [hid]
    exact h
  · left
    rw [hcc, pieSeriesCfg]
    simp

theorem presBar_L (w : WorkChart) (h : barOk w) : barOk (stepTotalLabel w) := by
  show ((stepTotalLabel w).chartType == some "bar" && (stepTotalLabel w).chartConfig.isEmpty)
      = false
    ∨ numericSeriesCands (stepTotalLabel w).data (stepTotalLabel w).config.xAxisKey = []
  rw [stepTotalLabel_chartType, stepTotalLabel_cc, stepTotalLabel_data, stepTotalLabel_x]
  exact h

theorem presBar_D (w : WorkChart) (h : barOk w) : barOk (stepDataKey w) := by
  show ((stepDataKey w).chartType == some "bar" && (ccDK w.chartConfig).isEmpty) = false
    ∨ numericSeriesCands (stepDataKey w).data (stepDataKey w).config.xAxisKey = []
  rw [ccDK_isEmpty]
  exact h

theorem presBar_M (w : WorkChart) (h : barOk w) : barOk (stepMargin w) := by
  show ((stepMargin w).chartType == some "bar" && (stepMargin w).chartConfig.isEmpty) = false
    ∨ numericSeriesCands (stepMargin w).data (stepMargin w).config.xAxisKey = []
  rw [stepMargin_chartType, stepMargin_cc, stepMargin_data, stepMargin_x]
  exact h

theorem presColors_R (w : WorkChart) (h : ∀ p ∈ w.chartConfig, ccEntryOk p) :
    ∀ p ∈ (stepPieReshape w).chartConfig, ccEntryOk p := by
  rcases stepPieReshape_cases w with hid | ⟨_, hcc, _⟩
  · rw [hid]
    exact h
  · rw [hcc]
    exact pieSeriesCfg_ok _

theorem presColors_L (w : WorkChart) (h : ∀ p ∈ w.chartConfig, ccEntryOk p) :
    ∀ p ∈ (stepTotalLabel w).chartConfig, ccEntryOk p := by
  rw [stepTotalLabel_cc]
  exact h

theorem presColors_D (w : WorkChart) (h : ∀ p ∈ w.chartConfig, ccEntryOk p) :
    ∀ p ∈ (stepDataKey w).chartConfig, ccEntryOk p := by
  show ∀ p ∈ ccDK w.chartConfig, ccEntryOk p
  exact ccDK_ok w.chartConfig h

theorem presColors_M (w : WorkChart) (h : ∀ p ∈ w.chartConfig, ccEntryOk p) :
    ∀ p ∈ (stepMargin w).chartConfig, ccEntryOk p := by
  rw [stepMargin_cc]
  exact h

theorem presReshape_L (w : WorkChart) (h : reshapeOk w) : reshapeOk (stepTotalLabel w) := by
  show ((stepTotalLabel w).chartType == some "pie") = false
    ∨ (stepTotalLabel w).data.all hasSegValue = true
    ∨ (!(numericSeriesCands (stepTotalLabel w).data (stepTotalLabel w).config.xAxisKey).isEmpty
        && !optFalsy (stepTotalLabel w).config.xAxisKey) = false
  rw [stepTotalLabel_chartType, stepTotalLabel_data, stepTotalLabel_x]
  exact h

theorem presReshape_D (w : WorkChart) (h : reshapeOk w) : reshapeOk (stepDataKey w) := h

theorem presReshape_M (w : WorkChart) (h : reshapeOk w) : reshapeOk (stepMargin w) := by
  show ((stepMargin w).chartType == some "pie") = false
    ∨ (stepMargin w).data.all hasSegValue = true
    ∨ (!(numericSeriesCands (stepMargin w).data (stepMargin w).config.xAxisKey).isEmpty
        && !optFalsy (stepMargin w).config.xAxisKey) = false
  rw [stepMargin_chartType, stepMargin_data, stepMargin_x]
  exact h

theorem presTL_D (w : WorkChart) (h : tlOk w) : tlOk (stepDataKey w) := h

theorem presTL_M (w : WorkChart) (h : tlOk w) : tlOk (stepMargin w) := by
  show ((stepMargin w).chartType == some "pie") = false
    ∨ optFalsy (stepMargin w).config.totalLabel = false
  rw [stepMargin_chartType, stepMargin_tl]
  exact h

theorem suffDK (w : WorkChart) (h : ccDK w.chartConfig = w.chartConfig) :
    stepDataKey w = w := by
  rw [stepDataKey, h]

theorem pipelineW_fix (w : WorkChart) : pipelineW (pipelineW w) = pipelineW w := by
  have hT : optFalsy (pipelineW w).config.title = false := by
    rw [pipelineW, stepPie]
    exact presTitle_M _ (presTitle_D _ (presTitle_L _ (presTitle_R _ (presTitle_C _
      (presTitle_B _ (presTitle_X _ (estTitle w)))))))
  have hX : xOk (pipelineW w) := by
    rw [pipelineW, stepPie]
    exact presX_M _ (presX_D _ (presX_L _ (presX_R _ (presX_C _ (presX_B _
      (estX (stepTitle w)))))))
  have hB : barOk (pipelineW w) := by
    rw [pipelineW, stepPie]
    exact presBar_M _ (presBar_D _ (presBar_L _ (presBar_R _ (presBar_C _
      (estBar (stepX (stepTitle w)))))))
  have hC : ∀ p ∈ (pipelineW w).chartConfig, ccEntryOk p := by
    rw [pipelineW, stepPie]
    exact presColors_M _ (presColors_D _ (presColors_L _ (presColors_R _ (estColors _))))
  have hR : reshapeOk (pipelineW w) := by
    rw [pipelineW, stepPie]
    exact presReshape_M _ (presReshape_D _ (presReshape_L _ (estReshape _)))
  have hL : tlOk (pipelineW w) := by
    rw [pipelineW, stepPie]
    exact presTL_M _ (presTL_D _ (estTL _))
  have hD : ccDK (pipelineW w).chartConfig = (pipelineW w).chartConfig := by
    rw [pipelineW, stepPie]
    rw [stepMargin_cc]
    exact ccDK_idem _
  have hM : (pipelineW w).config.margin.isSome = true := by
    rw [pipelineW]
    exact estMargin _
  conv_lhs => rw [pipelineW, stepPie]
  rw [suffTitle _ hT, suffX _ hX, suffBar _ hB, suffColors _ hC, suffReshape _ hR,
    suffTL _ hL, suffDK _ hD, suffMargin _ hM]

theorem pipelineW_chartType (w : WorkChart) : (pipelineW w).chartType = w.chartType := by
  rw [pipelineW, stepPie, stepMargin_chartType, stepDataKey_chartType,
    stepTotalLabel_chartType, stepPieReshape_chartType, stepColors_chartType,
    stepBar_chartType, stepX_chartType, stepTitle_chartType]

theorem pipelineW_data_ne_nil (w : WorkChart) (h : w.data ≠ []) : (pipelineW w).data ≠ [] := by
  rw [pipelineW, stepPie, stepMargin_data, stepDataKey_data, stepTotalLabel_data]
  rcases stepPieReshape_cases (stepColors (stepBar (stepX (stepTitle w)))) with hid | ⟨_, _, hdata⟩
  · rw [hid, stepColors_data, stepBar_data, stepX_data, stepTitle_data]
    exact h
  · rw [hdata, stepColors_data, stepBar_data, stepX_data, stepTitle_data]
    intro hc
    rw [List.map_eq_nil_iff] at hc
    exact h hc

theorem optFalsy_ifBar (o : Option String) :
    optFalsy (if optFalsy o then some "bar" else o) = false := by
  by_cases h : optFalsy o
  · rw [if_pos h]
    rfl
  · rw [if_neg h]
    exact Bool.not_eq_true _ |>.mp h

theorem prepare_some_eq (cd : FrontendChart) (r : RowObj) (rs : List RowObj) (w : WorkChart)
    (hdata : cd.data = some (r :: rs))
    (hw : w = { chartType := if optFalsy cd.chartType then some "bar" else cd.chartType,
                data := r :: rs,
                config := cd.config.getD ⟨none, none, none, none⟩,
                chartConfig := cd.chartConfig.getD [] }) :
    prepareChartDataForFrontend (some cd) =
      some { chartType := (pipelineW w).chartType, data := some (pipelineW w).data,
             config := some (pipelineW w).config,
             chartConfig := some (pipelineW w).chartConfig } := by
  subst hw
  rw [prepareChartDataForFrontend]
  dsimp only
  rw [hdata]

/-- **C5.** Applying the final normalization pass `prepareChartDataForFrontend`
twice yields the same result as applying it once: the pass is idempotent, so a
second application alters no field and removes no already-valid field. -/
theorem claim_C5_normalization_idempotent (c : Option FrontendChart) :
    prepareChartDataForFrontend (prepareChartDataForFrontend c)
      = prepareChartDataForFrontend c := by
  match c with
  | none => rfl
  | some cd =>
    rcases hdata : cd.data with _ | d
    · have h0 : prepareChartDataForFrontend (some cd) = none := by
        rw [prepareChartDataForFrontend]
        dsimp only
        rw [hdata]
      rw [h0]
      rfl
    · rcases d with _ | ⟨r, rs⟩
      · have h0 : prepareChartDataForFrontend (some cd) = none := by
          rw [prepareChartDataForFrontend]
          dsimp only
          rw [hdata]
        rw [h0]
        rfl
      · obtain ⟨w, hw⟩ : ∃ w : WorkChart,
            w = { chartType := if optFalsy cd.chartType then some "bar" else cd.chartType,
                  data := r :: rs,
                  config := cd.config.getD ⟨none, none, none, none⟩,
                  chartConfig := cd.chartConfig.getD [] } := ⟨_, rfl⟩
        have h1 := prepare_some_eq cd r rs w hdata hw
        have hne : (pipelineW w).data ≠ [] := by
          refine pipelineW_data_ne_nil w ?_
          rw [hw]
          simp
        obtain ⟨r2, rs2, hd2⟩ := List.exists_cons_of_ne_nil hne
        have hct : optFalsy (pipelineW w).chartType = false := by
          rw [pipelineW_chartType, hw]
          exact optFalsy_ifBar cd.chartType
        have h2 := prepare_some_eq
          { chartType := (pipelineW w).chartType, data := some (pipelineW w).data,
            config := some (pipelineW w).config,
            chartConfig := some (pipelineW w).chartConfig }
          r2 rs2 (pipelineW w) (by dsimp only; rw [hd2]) ?_
        · rw [h1, h2, pipelineW_fix]
        · dsimp only
          rw [hct, ← hd2]
          rfl
